import Mathlib

/-!
Verification of the TLS connector `openssl.go` from
`github.com/mongodb/mongo-tools/common/db/openssl`.

The Go file is straight-line configuration code that orchestrates calls into
an external OpenSSL binding and the `mgo` session layer.  We embed it
shallowly: each fallible external call is given an outcome by an environment
record (`Env` for context construction, `DialEnv` for dialing), and every
external call made is recorded in an event trace, so that claims about which
steps run, in which order, and with which arguments are statable.
-/

namespace OpensslConn

set_option linter.unreachableTactic false
set_option linter.unusedTactic false
set_option linter.unnecessarySeqFocus false

/-- Options record (`options.ToolOptions`) as consumed by this package:
only the fields the file reads. -/
structure ToolOptions where
  host : String := ""
  port : String := ""
  sslFipsMode : Bool := false
  sslAllowInvalidCert : Bool := false
  sslAllowInvalidHost : Bool := false
  sslCAFile : String := ""
  sslPEMKeyFile : String := ""
  sslPEMKeyPassword : String := ""
  sslCRLFile : String := ""
  authUsername : String := ""
  authPassword : String := ""
  authSource : String := ""
  authMechanism : String := ""
deriving Repr, DecidableEq

/-- Peer-verification mode passed to `ctx.SetVerify`. -/
inductive VerifyOption
  | VerifyNone
  | VerifyPeer
deriving Repr, DecidableEq

/-- Dial-time verification-strictness flag (`openssl.DialFlags`):
`zero` is full verification, `insecureSkipHostVerification` skips it. -/
inductive DialFlags
  | zero
  | insecureSkipHostVerification
deriving Repr, DecidableEq

/-- External calls the Go file makes, recorded as an event trace. -/
inductive Event
  | FIPSModeSet (mode : Bool)
  | NewCtx
  | SetOptions
  | SetCipherList (s : String)
  | UseCertificateChainFile (f : String)
  | UsePrivateKeyFileWithPassword (f pw : String)
  | UsePrivateKeyFile (f : String)
  | CheckPrivateKey
  | SetModeAutoRetry
  | SetSessionCacheOff
  | LoadClientCAFile (f : String)
  | SetClientCAList
  | LoadVerifyLocations (f : String)
  | SetVerify (v : VerifyOption)
  | StoreSetFlagsCRLCheck
  | AddLookup
  | LoadCRLFile (f : String)
  | MgoDialWithInfo
  | OpenSSLDial (flags : DialFlags)
deriving Repr, DecidableEq

/-- State of the `openssl.Ctx` being configured, as observable through the
setter calls the Go file performs.  A freshly allocated context has all the
fields at their library defaults. -/
structure Ctx where
  optionsOpAll : Bool := false
  optionsNoSSLv2 : Bool := false
  cipherList : Option String := none
  certChainFile : Option String := none
  privateKeyFile : Option String := none
  privateKeyPassword : Option String := none
  privateKeyChecked : Bool := false
  modeAutoRetry : Bool := false
  sessionCacheOff : Bool := false
  clientCAList : Option String := none
  verifyLocations : Option String := none
  verifyMode : Option VerifyOption := none
  storeCRLCheck : Bool := false
  crlLoaded : Bool := false
deriving Repr, DecidableEq

/-- Outcomes of the fallible external library calls made during context
construction: `none` means the call succeeds, `some e` that it fails with
message `e`.  `cipherListErr` and `loadCRLErr` are the return values the Go
code discards. -/
structure Env where
  fipsErr : Option String := none
  newCtxErr : Option String := none
  cipherListErr : Option String := none
  certChainErr : Option String := none
  privKeyErr : Option String := none
  checkKeyErr : Option String := none
  loadClientCAErr : Option String := none
  verifyLocErr : Option String := none
  addLookupErr : Option String := none
  loadCRLErr : Option String := none
deriving Repr, DecidableEq

/-- The fixed cipher policy string at openssl.go line 103. -/
def cipherString : String := "HIGH:!EXPORT:!aNULL@STRENGTH"

/-- Sequence a construction stage with a continuation, aborting on error and
concatenating traces. -/
def andThen (s : Except String Ctx × List Event)
    (f : Ctx → Except String Ctx × List Event) : Except String Ctx × List Event :=
  match s with
  | (.error e, tr) => (.error e, tr)
  | (.ok c, tr) =>
    match f c with
    | (r, tr2) => (r, tr ++ tr2)

/-- Lines 86-103: FIPSModeSet, NewCtxWithVersion(AnyVersion),
SetOptions(OpAll | NoSSLv2), SetCipherList (return value discarded). -/
def initStage (opts : ToolOptions) (env : Env) : Except String Ctx × List Event :=
  let tr := [Event.FIPSModeSet opts.sslFipsMode]
  match env.fipsErr with
  | some e =>
    (.error ("couldn't set FIPS mode to "
      ++ (if opts.sslFipsMode then "true" else "false") ++ ": " ++ e), tr)
  | none =>
    let tr := tr ++ [Event.NewCtx]
    match env.newCtxErr with
    | some e =>
      (.error ("failure creating new openssl context with "
        ++ "NewCtxWithVersion(AnyVersion): " ++ e), tr)
    | none =>
      let ctx : Ctx := { optionsOpAll := true, optionsNoSSLv2 := true }
      let tr := tr ++ [Event.SetOptions, Event.SetCipherList cipherString]
      -- the SetCipherList return value is discarded by the Go code; on
      -- failure the library leaves the cipher list unset
      let ctx := if env.cipherListErr.isNone then { ctx with cipherList := some cipherString } else ctx
      (.ok ctx, tr)

/-- Lines 106-124: if a PEM key file is given, load the certificate chain,
then the private key (with the password when one is supplied), then check
that key and certificate match. -/
def pemStage (opts : ToolOptions) (env : Env) (ctx : Ctx) : Except String Ctx × List Event :=
  if opts.sslPEMKeyFile = "" then (.ok ctx, [])
  else
    let tr := [Event.UseCertificateChainFile opts.sslPEMKeyFile]
    match env.certChainErr with
    | some e => (.error ("UseCertificateChainFile: " ++ e), tr)
    | none =>
      let ctx := { ctx with certChainFile := some opts.sslPEMKeyFile }
      let tr := tr ++
        (if opts.sslPEMKeyPassword = "" then
          [Event.UsePrivateKeyFile opts.sslPEMKeyFile]
        else
          [Event.UsePrivateKeyFileWithPassword opts.sslPEMKeyFile opts.sslPEMKeyPassword])
      match env.privKeyErr with
      | some e => (.error ("UsePrivateKeyFile: " ++ e), tr)
      | none =>
        let ctx := { ctx with
          privateKeyFile := some opts.sslPEMKeyFile,
          privateKeyPassword :=
            if opts.sslPEMKeyPassword = "" then none else some opts.sslPEMKeyPassword }
        let tr := tr ++ [Event.CheckPrivateKey]
        match env.checkKeyErr with
        | some e => (.error ("CheckPrivateKey: " ++ e), tr)
        | none => (.ok { ctx with privateKeyChecked := true }, tr)

/-- Lines 128-131: SetMode(AutoRetry) and SetSessionCacheMode(SessionCacheOff),
both unconditional and infallible. -/
def modeStage (ctx : Ctx) : Except String Ctx × List Event :=
  (.ok { ctx with modeAutoRetry := true, sessionCacheOff := true },
   [Event.SetModeAutoRetry, Event.SetSessionCacheOff])

/-- Lines 133-151: if a CA file is given, load the client-CA list and the
verify locations from it, then set the peer-verification mode from the
allow-invalid-cert flag. -/
def caStage (opts : ToolOptions) (env : Env) (ctx : Ctx) : Except String Ctx × List Event :=
  if opts.sslCAFile = "" then (.ok ctx, [])
  else
    let tr := [Event.LoadClientCAFile opts.sslCAFile]
    match env.loadClientCAErr with
    | some e => (.error ("LoadClientCAFile: " ++ e), tr)
    | none =>
      let ctx := { ctx with clientCAList := some opts.sslCAFile }
      let tr := tr ++ [Event.SetClientCAList, Event.LoadVerifyLocations opts.sslCAFile]
      match env.verifyLocErr with
      | some e => (.error ("LoadVerifyLocations: " ++ e), tr)
      | none =>
        let ctx := { ctx with verifyLocations := some opts.sslCAFile }
        let vo := if opts.sslAllowInvalidCert then VerifyOption.VerifyNone
                  else VerifyOption.VerifyPeer
        (.ok { ctx with verifyMode := some vo }, tr ++ [Event.SetVerify vo])

/-- Lines 153-161: if a CRL file is given, set the CRLCheck flag on the
certificate store, add a file lookup, and load the CRL file into it.  The
return value of `lookup.LoadCRLFile` is discarded by the Go code. -/
def crlStage (opts : ToolOptions) (env : Env) (ctx : Ctx) : Except String Ctx × List Event :=
  if opts.sslCRLFile = "" then (.ok ctx, [])
  else
    let ctx := { ctx with storeCRLCheck := true }
    let tr := [Event.StoreSetFlagsCRLCheck, Event.AddLookup]
    match env.addLookupErr with
    | some e => (.error ("AddLookup(X509LookupFile()): " ++ e), tr)
    | none =>
      let tr := tr ++ [Event.LoadCRLFile opts.sslCRLFile]
      -- error return value of LoadCRLFile is discarded (line 160)
      (.ok { ctx with crlLoaded := env.loadCRLErr.isNone }, tr)

/-- `setupCtx` (lines 82-164): the whole context-construction sequence. -/
def setupCtx (opts : ToolOptions) (env : Env) : Except String Ctx × List Event :=
  andThen (andThen (andThen (andThen (initStage opts env)
    (pemStage opts env)) modeStage) (caStage opts env)) (crlStage opts env)

/-- Modelled from the spec: `util.CreateConnectionAddrs` (an external
collaborator, not in this repository) converts a host list and port into a
list of dialable endpoint addresses. -/
def CreateConnectionAddrs (host port : String) : List String :=
  [host ++ ":" ++ port]

/-- Go `time.Second` in nanoseconds. -/
def timeSecond : Nat := 1000000000

/-- Line 17: `DefaultSSLDialTimeout = time.Second * 3`. -/
def DefaultSSLDialTimeout : Nat := timeSecond * 3

/-- The `mgo.DialInfo` record Configure builds for the session layer;
`dialFlags` is the strictness flag captured by the dialer closure. -/
structure DialInfo where
  addrs : List String
  timeout : Nat
  dialFlags : DialFlags
  username : String
  password : String
  source : String
  mechanism : String
deriving Repr, DecidableEq

/-- The connector state (`SSLDBConnector`): a zero value has no dial info,
no recorded dial error, and no context. -/
structure SSLDBConnector where
  dialInfo : Option DialInfo := none
  dialError : Option String := none
  ctx : Option Ctx := none
deriving Repr, DecidableEq

/-- `Configure` (lines 30-67): build the context, derive the strictness
flag, and populate the dial info handed to the session layer.  On a
`setupCtx` failure the error is wrapped and the dial info is left untouched. -/
def Configure (self : SSLDBConnector) (opts : ToolOptions) (env : Env) :
    SSLDBConnector × Except String Unit × List Event :=
  let connectionAddrs := CreateConnectionAddrs opts.host opts.port
  match setupCtx opts env with
  | (.error e, tr) => ({ self with ctx := none }, .error ("setupCtx: " ++ e), tr)
  | (.ok c, tr) =>
    let flags :=
      if opts.sslAllowInvalidCert || opts.sslAllowInvalidHost || opts.sslCAFile = "" then
        DialFlags.insecureSkipHostVerification
      else
        DialFlags.zero
    ({ self with
        ctx := some c,
        dialInfo := some {
          addrs := connectionAddrs,
          timeout := DefaultSSLDialTimeout,
          dialFlags := flags,
          username := opts.authUsername,
          password := opts.authPassword,
          source := opts.authSource,
          mechanism := opts.authMechanism } },
     .ok (), tr)

/-- Behaviour of the session layer during one `mgo.DialWithInfo` call:
whether it invoked the stored dialer, the low-level openssl dial outcome the
dialer then records, the session layer's own outcome, and the session value
on success. -/
structure DialEnv where
  dialerInvoked : Bool := true
  opensslDialErr : Option String := none
  sessionErr : Option String := none
  session : Nat := 0
deriving Repr, DecidableEq

/-- Result of `GetNewSession`: a session, an error, or the nil-pointer
panic that `mgo.DialWithInfo` raises when handed a nil dial info. -/
inductive SessionResult
  | ok (s : Nat)
  | err (msg : String)
  | panicNilDeref
deriving Repr, DecidableEq

/-- `GetNewSession` (lines 70-76): call `mgo.DialWithInfo(self.dialInfo)`
unconditionally; the dialer closure, when the session layer invokes it,
records the low-level openssl dial error into `self.dialError` (line 49);
if the session layer fails and a low-level error is recorded, the two are
concatenated into the surfaced error. -/
def GetNewSession (self : SSLDBConnector) (denv : DialEnv) :
    SSLDBConnector × SessionResult × List Event :=
  match self.dialInfo with
  | none =>
    -- mgo.DialWithInfo dereferences the nil dial info: runtime panic;
    -- the Go code performs no configured-check before the call
    (self, .panicNilDeref, [Event.MgoDialWithInfo])
  | some di =>
    let (self, tr) :=
      if denv.dialerInvoked then
        ({ self with dialError := denv.opensslDialErr },
         [Event.MgoDialWithInfo, Event.OpenSSLDial di.dialFlags])
      else
        (self, [Event.MgoDialWithInfo])
    match denv.sessionErr with
    | none => (self, .ok denv.session, tr)
    | some e =>
      match self.dialError with
      | some de => (self, .err (e ++ ", openssl error: " ++ de), tr)
      | none => (self, .err e, tr)

/-- Context state after `NewCtxWithVersion` and the unconditional
`SetOptions`/`SetCipherList` calls (lines 90-103): the cipher list is set
only when the library call reported success. -/
def ctx0 (env : Env) : Ctx :=
  if env.cipherListErr.isNone then
    { optionsOpAll := true, optionsNoSSLv2 := true, cipherList := some cipherString }
  else
    { optionsOpAll := true, optionsNoSSLv2 := true }

/-- Trace of the unconditional opening calls (lines 86-103). -/
def initTr (opts : ToolOptions) : List Event :=
  [Event.FIPSModeSet opts.sslFipsMode, Event.NewCtx, Event.SetOptions,
   Event.SetCipherList cipherString]

/-- The private-key-load event: with the password when one is supplied
(line 111), otherwise without (line 116). -/
def keyEvt (opts : ToolOptions) : List Event :=
  if opts.sslPEMKeyPassword = "" then
    [Event.UsePrivateKeyFile opts.sslPEMKeyFile]
  else
    [Event.UsePrivateKeyFileWithPassword opts.sslPEMKeyFile opts.sslPEMKeyPassword]

/-- Trace of a fully successful PEM block (lines 106-124). -/
def pemTr (opts : ToolOptions) : List Event :=
  [Event.UseCertificateChainFile opts.sslPEMKeyFile] ++ keyEvt opts ++ [Event.CheckPrivateKey]

/-- Context updates of a fully successful PEM block. -/
def pemUpd (opts : ToolOptions) (c : Ctx) : Ctx :=
  { c with
    certChainFile := some opts.sslPEMKeyFile,
    privateKeyFile := some opts.sslPEMKeyFile,
    privateKeyPassword :=
      if opts.sslPEMKeyPassword = "" then none else some opts.sslPEMKeyPassword,
    privateKeyChecked := true }

/-- Trace of the PEM block: empty when no PEM key file is given. -/
def pemTrIf (opts : ToolOptions) : List Event :=
  if opts.sslPEMKeyFile = "" then [] else pemTr opts

/-- Context updates of the PEM block: none when no PEM key file is given. -/
def pemUpdIf (opts : ToolOptions) (c : Ctx) : Ctx :=
  if opts.sslPEMKeyFile = "" then c else pemUpd opts c

/-- Trace of SetMode(AutoRetry) and SetSessionCacheMode (lines 128-131). -/
def modeTr : List Event := [Event.SetModeAutoRetry, Event.SetSessionCacheOff]

/-- Context updates of lines 128-131. -/
def modeUpd (c : Ctx) : Ctx := { c with modeAutoRetry := true, sessionCacheOff := true }

/-- The verify option chosen at lines 144-149. -/
def caVerify (opts : ToolOptions) : VerifyOption :=
  if opts.sslAllowInvalidCert then VerifyOption.VerifyNone else VerifyOption.VerifyPeer

/-- Trace of a fully successful CA block (lines 133-151). -/
def caTr (opts : ToolOptions) : List Event :=
  [Event.LoadClientCAFile opts.sslCAFile, Event.SetClientCAList,
   Event.LoadVerifyLocations opts.sslCAFile, Event.SetVerify (caVerify opts)]

/-- Context updates of a fully successful CA block. -/
def caUpd (opts : ToolOptions) (c : Ctx) : Ctx :=
  { c with
    clientCAList := some opts.sslCAFile,
    verifyLocations := some opts.sslCAFile,
    verifyMode := some (caVerify opts) }

/-- Trace of the CA block: empty when no CA file is given. -/
def caTrIf (opts : ToolOptions) : List Event :=
  if opts.sslCAFile = "" then [] else caTr opts

/-- Context updates of the CA block: none when no CA file is given. -/
def caUpdIf (opts : ToolOptions) (c : Ctx) : Ctx :=
  if opts.sslCAFile = "" then c else caUpd opts c

/-- Trace of a successful CRL block (lines 153-161). -/
def crlTr (opts : ToolOptions) : List Event :=
  [Event.StoreSetFlagsCRLCheck, Event.AddLookup, Event.LoadCRLFile opts.sslCRLFile]

/-- Context updates of a successful CRL block: the CRL is marked loaded only
when the (discarded) LoadCRLFile result was a success. -/
def crlUpd (env : Env) (c : Ctx) : Ctx :=
  { c with storeCRLCheck := true, crlLoaded := env.loadCRLErr.isNone }

/-- Trace of the CRL block: empty when no CRL file is given. -/
def crlTrIf (opts : ToolOptions) : List Event :=
  if opts.sslCRLFile = "" then [] else crlTr opts

/-- Context updates of the CRL block: none when no CRL file is given. -/
def crlUpdIf (opts : ToolOptions) (env : Env) (c : Ctx) : Ctx :=
  if opts.sslCRLFile = "" then c else crlUpd env c

/-- The context a successful `setupCtx` returns, in closed form. -/
def ctxSpec (opts : ToolOptions) (env : Env) : Ctx :=
  crlUpdIf opts env (caUpdIf opts (modeUpd (pemUpdIf opts (ctx0 env))))

/-- The trace a successful `setupCtx` emits, in closed form. -/
def trSpec (opts : ToolOptions) : List Event :=
  initTr opts ++ pemTrIf opts ++ modeTr ++ caTrIf opts ++ crlTrIf opts

/-- Erase the argument of SetVerify events, for comparing traces up to the
chosen peer-verification mode. -/
def scrubVerifyEvent : Event → Event
  | Event.SetVerify _ => Event.SetVerify VerifyOption.VerifyPeer
  | e => e

/-- Erase the peer-verification mode, for comparing contexts up to it. -/
def ctxNoVerify (c : Ctx) : Ctx := { c with verifyMode := none }

/-- Options with only a CA file set, used as a concrete strict configuration. -/
def c1opts : ToolOptions := { sslCAFile := "ca.pem" }

/-- Options naming a CRL file, for exercising the CRL block. -/
def c2opts : ToolOptions := { host := "localhost", port := "27017", sslCRLFile := "revoked.crl" }

/-- Library behaviour in which loading the CRL file fails and every other
call succeeds. -/
def c2env : Env := { loadCRLErr := some "no such file or directory" }

/-- A concrete dial info as Configure would build it. -/
def c3di : DialInfo :=
  { addrs := ["localhost:27017"], timeout := DefaultSSLDialTimeout,
    dialFlags := DialFlags.zero, username := "", password := "", source := "",
    mechanism := "" }

/-- A configured connector holding `c3di`. -/
def c3conn : SSLDBConnector := { dialInfo := some c3di }

/-- A dial in which both the session layer and the low-level TLS dial fail. -/
def c3denv : DialEnv :=
  { sessionErr := some "no reachable servers",
    opensslDialErr := some "certificate verify failed" }

/-- Options with only a CA file set, for the verify-mode claim. -/
def c4opts : ToolOptions := { sslCAFile := "ca2.pem" }

/-- Options with a PEM key file and a password, for the PEM-block claim. -/
def c5opts : ToolOptions := { sslPEMKeyFile := "client.pem", sslPEMKeyPassword := "secret" }

/-- Library behaviour in which setting the FIPS mode fails. -/
def c6env : Env := { fipsErr := some "fips unsupported" }

/-- C1: Configure derives the dial-time strictness flag as
`insecureSkipHostVerification` if and only if allow-invalid-cert is set, or
allow-invalid-hostname is set, or the CA-file path is empty; otherwise the
flag is `zero` (full verification).  The flag is captured in the dial info
and is the one every subsequent dial hands to `openssl.Dial`. -/
theorem configure_strictness_flag (self : SSLDBConnector) (opts : ToolOptions) (env : Env)
    (h : (Configure self opts env).2.1 = Except.ok ()) :
    ∃ di, ((Configure self opts env).1).dialInfo = some di ∧
      (di.dialFlags = DialFlags.insecureSkipHostVerification ↔
        (opts.sslAllowInvalidCert = true ∨ opts.sslAllowInvalidHost = true ∨
          opts.sslCAFile = "")) ∧
      (¬ (opts.sslAllowInvalidCert = true ∨ opts.sslAllowInvalidHost = true ∨
          opts.sslCAFile = "") → di.dialFlags = DialFlags.zero) ∧
      (∀ denv : DialEnv, denv.dialerInvoked = true →
        Event.OpenSSLDial di.dialFlags ∈
          (GetNewSession ((Configure self opts env).1) denv).2.2) := by
  rcases hs : setupCtx opts env with ⟨r, tr⟩
  cases r with
  | error e => simp [Configure, hs] at h
  | ok c =>
    simp only [Configure, hs]
    refine ⟨_, rfl, ?_, ?_, ?_⟩
    · cases hca : opts.sslAllowInvalidCert <;>
      cases hch : opts.sslAllowInvalidHost <;>
      by_cases hfile : opts.sslCAFile = "" <;>
      simp [hca, hch, hfile]
    · intro hnot
      simp only [not_or, Bool.not_eq_true] at hnot
      simp [hnot.1, hnot.2.1, hnot.2.2]
    · intro denv hdi
      simp only [GetNewSession, hdi, if_true]
      cases denv.sessionErr with
      | none => simp
      | some e => cases denv.opensslDialErr <;> simp

/-- An error result passes through `andThen` unchanged. -/
theorem andThen_err (e : String) (t : List Event) (f : Ctx → Except String Ctx × List Event) :
    andThen (Except.error e, t) f = (Except.error e, t) := rfl

/-- A success result feeds the continuation and concatenates traces. -/
theorem andThen_ok (c : Ctx) (t : List Event) (f : Ctx → Except String Ctx × List Event) :
    andThen (Except.ok c, t) f = ((f c).1, t ++ (f c).2) := by
  unfold andThen
  rcases h : f c with ⟨r, t2⟩
  simp [h]

/-- initStage with both opening calls succeeding. -/
theorem initStage_ok (opts : ToolOptions) (env : Env)
    (hf : env.fipsErr = none) (hn : env.newCtxErr = none) :
    initStage opts env = (Except.ok (ctx0 env), initTr opts) := by
  simp only [initStage, hf, hn, ctx0, initTr]
  cases env.cipherListErr <;> simp

/-- initStage when FIPSModeSet fails. -/
theorem initStage_err_fips (opts : ToolOptions) (env : Env) (e : String)
    (hf : env.fipsErr = some e) :
    initStage opts env =
      (Except.error ("couldn't set FIPS mode to "
        ++ (if opts.sslFipsMode then "true" else "false") ++ ": " ++ e),
       [Event.FIPSModeSet opts.sslFipsMode]) := by
  simp [initStage, hf]

/-- initStage when context allocation fails. -/
theorem initStage_err_newctx (opts : ToolOptions) (env : Env) (e : String)
    (hf : env.fipsErr = none) (hn : env.newCtxErr = some e) :
    initStage opts env =
      (Except.error ("failure creating new openssl context with "
        ++ "NewCtxWithVersion(AnyVersion): " ++ e),
       [Event.FIPSModeSet opts.sslFipsMode, Event.NewCtx]) := by
  simp [initStage, hf, hn]

/-- pemStage is skipped when no PEM key file is given. -/
theorem pemStage_empty (opts : ToolOptions) (env : Env) (c : Ctx)
    (h : opts.sslPEMKeyFile = "") : pemStage opts env c = (Except.ok c, []) := by
  simp [pemStage, h]

/-- pemStage when every call in it succeeds. -/
theorem pemStage_ok (opts : ToolOptions) (env : Env) (c : Ctx)
    (h : ¬ opts.sslPEMKeyFile = "") (h1 : env.certChainErr = none)
    (h2 : env.privKeyErr = none) (h3 : env.checkKeyErr = none) :
    pemStage opts env c = (Except.ok (pemUpd opts c), pemTr opts) := by
  simp [pemStage, h, h1, h2, h3, pemUpd, pemTr, keyEvt]

/-- pemStage when loading the certificate chain fails. -/
theorem pemStage_err_cert (opts : ToolOptions) (env : Env) (c : Ctx) (e : String)
    (h : ¬ opts.sslPEMKeyFile = "") (h1 : env.certChainErr = some e) :
    pemStage opts env c =
      (Except.error ("UseCertificateChainFile: " ++ e),
       [Event.UseCertificateChainFile opts.sslPEMKeyFile]) := by
  simp [pemStage, h, h1]

/-- pemStage when loading the private key fails. -/
theorem pemStage_err_key (opts : ToolOptions) (env : Env) (c : Ctx) (e : String)
    (h : ¬ opts.sslPEMKeyFile = "") (h1 : env.certChainErr = none)
    (h2 : env.privKeyErr = some e) :
    pemStage opts env c =
      (Except.error ("UsePrivateKeyFile: " ++ e),
       [Event.UseCertificateChainFile opts.sslPEMKeyFile] ++ keyEvt opts) := by
  simp [pemStage, h, h1, h2, keyEvt]

/-- pemStage when the key-certificate match check fails. -/
theorem pemStage_err_check (opts : ToolOptions) (env : Env) (c : Ctx) (e : String)
    (h : ¬ opts.sslPEMKeyFile = "") (h1 : env.certChainErr = none)
    (h2 : env.privKeyErr = none) (h3 : env.checkKeyErr = some e) :
    pemStage opts env c = (Except.error ("CheckPrivateKey: " ++ e), pemTr opts) := by
  simp [pemStage, h, h1, h2, h3, pemTr, keyEvt]

/-- modeStage always succeeds. -/
theorem modeStage_eq (c : Ctx) : modeStage c = (Except.ok (modeUpd c), modeTr) := rfl

/-- caStage is skipped when no CA file is given. -/
theorem caStage_empty (opts : ToolOptions) (env : Env) (c : Ctx)
    (h : opts.sslCAFile = "") : caStage opts env c = (Except.ok c, []) := by
  simp [caStage, h]

/-- caStage when both CA loads succeed. -/
theorem caStage_ok (opts : ToolOptions) (env : Env) (c : Ctx)
    (h : ¬ opts.sslCAFile = "") (h1 : env.loadClientCAErr = none)
    (h2 : env.verifyLocErr = none) :
    caStage opts env c = (Except.ok (caUpd opts c), caTr opts) := by
  simp [caStage, h, h1, h2, caUpd, caTr, caVerify]

/-- caStage when LoadClientCAFile fails. -/
theorem caStage_err_load (opts : ToolOptions) (env : Env) (c : Ctx) (e : String)
    (h : ¬ opts.sslCAFile = "") (h1 : env.loadClientCAErr = some e) :
    caStage opts env c =
      (Except.error ("LoadClientCAFile: " ++ e), [Event.LoadClientCAFile opts.sslCAFile]) := by
  simp [caStage, h, h1]

/-- caStage when LoadVerifyLocations fails. -/
theorem caStage_err_verify (opts : ToolOptions) (env : Env) (c : Ctx) (e : String)
    (h : ¬ opts.sslCAFile = "") (h1 : env.loadClientCAErr = none)
    (h2 : env.verifyLocErr = some e) :
    caStage opts env c =
      (Except.error ("LoadVerifyLocations: " ++ e),
       [Event.LoadClientCAFile opts.sslCAFile, Event.SetClientCAList,
        Event.LoadVerifyLocations opts.sslCAFile]) := by
  simp [caStage, h, h1, h2]

/-- crlStage is skipped when no CRL file is given. -/
theorem crlStage_empty (opts : ToolOptions) (env : Env) (c : Ctx)
    (h : opts.sslCRLFile = "") : crlStage opts env c = (Except.ok c, []) := by
  simp [crlStage, h]

/-- crlStage when AddLookup succeeds; the LoadCRLFile outcome is recorded in
the store but never turned into an error. -/
theorem crlStage_ok (opts : ToolOptions) (env : Env) (c : Ctx)
    (h : ¬ opts.sslCRLFile = "") (h1 : env.addLookupErr = none) :
    crlStage opts env c = (Except.ok (crlUpd env c), crlTr opts) := by
  simp [crlStage, h, h1, crlUpd, crlTr]

/-- crlStage when AddLookup fails. -/
theorem crlStage_err (opts : ToolOptions) (env : Env) (c : Ctx) (e : String)
    (h : ¬ opts.sslCRLFile = "") (h1 : env.addLookupErr = some e) :
    crlStage opts env c =
      (Except.error ("AddLookup(X509LookupFile()): " ++ e),
       [Event.StoreSetFlagsCRLCheck, Event.AddLookup]) := by
  simp [crlStage, h, h1]

/-- setupCtx once the opening calls have succeeded. -/
theorem setupCtx_unfold (opts : ToolOptions) (env : Env)
    (hf : env.fipsErr = none) (hn : env.newCtxErr = none) :
    setupCtx opts env =
      andThen (andThen (andThen (andThen (Except.ok (ctx0 env), initTr opts)
        (pemStage opts env)) modeStage) (caStage opts env)) (crlStage opts env) := by
  rw [setupCtx, initStage_ok opts env hf hn]

/-- A successful setupCtx returns exactly the context `ctxSpec` and emits
exactly the trace `trSpec`. -/
theorem setupCtx_ok_char (opts : ToolOptions) (env : Env) (c : Ctx) (tr : List Event)
    (h : setupCtx opts env = (Except.ok c, tr)) :
    c = ctxSpec opts env ∧ tr = trSpec opts := by
  cases hf : env.fipsErr with
  | some e =>
    rw [setupCtx, initStage_err_fips opts env e hf] at h
    simp [andThen_err] at h
  | none =>
  cases hn : env.newCtxErr with
  | some e =>
    rw [setupCtx, initStage_err_newctx opts env e hf hn] at h
    simp [andThen_err] at h
  | none =>
  rw [setupCtx_unfold opts env hf hn] at h
  have hps : pemStage opts env (ctx0 env) =
      (Except.ok (pemUpdIf opts (ctx0 env)), pemTrIf opts) := by
    by_cases hpem : opts.sslPEMKeyFile = ""
    · simp [pemStage_empty opts env _ hpem, pemUpdIf, pemTrIf, hpem]
    · cases hcc : env.certChainErr with
      | some e =>
        rw [andThen_ok, pemStage_err_cert opts env (ctx0 env) e hpem hcc] at h
        simp [andThen_err] at h
      | none =>
        cases hpk : env.privKeyErr with
        | some e =>
          rw [andThen_ok, pemStage_err_key opts env (ctx0 env) e hpem hcc hpk] at h
          simp [andThen_err] at h
        | none =>
          cases hck : env.checkKeyErr with
          | some e =>
            rw [andThen_ok, pemStage_err_check opts env (ctx0 env) e hpem hcc hpk hck] at h
            simp [andThen_err] at h
          | none =>
            simp [pemStage_ok opts env _ hpem hcc hpk hck, pemUpdIf, pemTrIf, hpem]
  rw [andThen_ok, hps] at h
  simp only [andThen_ok, modeStage_eq, Prod.fst, Prod.snd] at h
  have hcas : caStage opts env (modeUpd (pemUpdIf opts (ctx0 env))) =
      (Except.ok (caUpdIf opts (modeUpd (pemUpdIf opts (ctx0 env)))), caTrIf opts) := by
    by_cases hcaf : opts.sslCAFile = ""
    · simp [caStage_empty opts env _ hcaf, caUpdIf, caTrIf, hcaf]
    · cases hlc : env.loadClientCAErr with
      | some e =>
        rw [caStage_err_load opts env _ e hcaf hlc] at h
        simp [andThen_err] at h
      | none =>
        cases hvl : env.verifyLocErr with
        | some e =>
          rw [caStage_err_verify opts env _ e hcaf hlc hvl] at h
          simp [andThen_err] at h
        | none =>
          simp [caStage_ok opts env _ hcaf hlc hvl, caUpdIf, caTrIf, hcaf]
  rw [hcas] at h
  simp only [andThen_ok, Prod.fst, Prod.snd] at h
  have hcrls : crlStage opts env (caUpdIf opts (modeUpd (pemUpdIf opts (ctx0 env)))) =
      (Except.ok (crlUpdIf opts env (caUpdIf opts (modeUpd (pemUpdIf opts (ctx0 env))))),
       crlTrIf opts) := by
    by_cases hcrlf : opts.sslCRLFile = ""
    · simp [crlStage_empty opts env _ hcrlf, crlUpdIf, crlTrIf, hcrlf]
    · cases hal : env.addLookupErr with
      | some e =>
        rw [crlStage_err opts env _ e hcrlf hal] at h
        simp at h
      | none =>
        simp [crlStage_ok opts env _ hcrlf hal, crlUpdIf, crlTrIf, hcrlf]
  rw [hcrls] at h
  simp only [Prod.mk.injEq, Except.ok.injEq] at h
  obtain ⟨h1, h2⟩ := h
  subst h1 h2
  exact ⟨rfl, by simp [trSpec, List.append_assoc]⟩

/-- An event in the trace of a composed computation came from one of the
two parts. -/
theorem andThen_mem (s : Except String Ctx × List Event)
    (f : Ctx → Except String Ctx × List Event) (ev : Event)
    (h : ev ∈ (andThen s f).2) : ev ∈ s.2 ∨ ∃ c, ev ∈ (f c).2 := by
  rcases s with ⟨r, t⟩
  cases r with
  | error e => exact Or.inl h
  | ok c =>
    rw [andThen_ok] at h
    simp only [List.mem_append] at h
    rcases h with h | h
    · exact Or.inl h
    · exact Or.inr ⟨c, h⟩

/-- Every event of a setupCtx trace comes from one of the five stages. -/
theorem setupCtx_mem_cases (opts : ToolOptions) (env : Env) (ev : Event)
    (h : ev ∈ (setupCtx opts env).2) :
    ev ∈ (initStage opts env).2 ∨ (∃ c, ev ∈ (pemStage opts env c).2) ∨
    (∃ c, ev ∈ (modeStage c).2) ∨ (∃ c, ev ∈ (caStage opts env c).2) ∨
    (∃ c, ev ∈ (crlStage opts env c).2) := by
  rw [setupCtx] at h
  rcases andThen_mem _ _ _ h with h | ⟨c5, h⟩
  · rcases andThen_mem _ _ _ h with h | ⟨c4, h⟩
    · rcases andThen_mem _ _ _ h with h | ⟨c3, h⟩
      · rcases andThen_mem _ _ _ h with h | ⟨c2, h⟩
        · exact Or.inl h
        · exact Or.inr (Or.inl ⟨c2, h⟩)
      · exact Or.inr (Or.inr (Or.inl ⟨c3, h⟩))
    · exact Or.inr (Or.inr (Or.inr (Or.inl ⟨c4, h⟩)))
  · exact Or.inr (Or.inr (Or.inr (Or.inr ⟨c5, h⟩)))

/-- The opening stage only ever emits its four fixed events. -/
theorem initStage_mem (opts : ToolOptions) (env : Env) (ev : Event)
    (h : ev ∈ (initStage opts env).2) :
    ev = Event.FIPSModeSet opts.sslFipsMode ∨ ev = Event.NewCtx ∨
    ev = Event.SetOptions ∨ ev = Event.SetCipherList cipherString := by
  unfold initStage at h
  repeat' split at h
  all_goals simp_all
  all_goals tauto

/-- The PEM stage emits events only when a PEM key file is given, and only
the chain-load, key-load and key-check events for that file. -/
theorem pemStage_mem (opts : ToolOptions) (env : Env) (c : Ctx) (ev : Event)
    (h : ev ∈ (pemStage opts env c).2) :
    ¬ opts.sslPEMKeyFile = "" ∧
    (ev = Event.UseCertificateChainFile opts.sslPEMKeyFile ∨
     ev = Event.UsePrivateKeyFileWithPassword opts.sslPEMKeyFile opts.sslPEMKeyPassword ∨
     ev = Event.UsePrivateKeyFile opts.sslPEMKeyFile ∨
     ev = Event.CheckPrivateKey) := by
  unfold pemStage at h
  repeat' split at h
  all_goals simp_all
  all_goals tauto

/-- The mode stage only emits its two fixed events. -/
theorem modeStage_mem (c : Ctx) (ev : Event) (h : ev ∈ (modeStage c).2) :
    ev = Event.SetModeAutoRetry ∨ ev = Event.SetSessionCacheOff := by
  unfold modeStage at h
  simp_all

/-- The CA stage emits events only when a CA file is given, and only the
CA-load, verify-locations and set-verify events. -/
theorem caStage_mem (opts : ToolOptions) (env : Env) (c : Ctx) (ev : Event)
    (h : ev ∈ (caStage opts env c).2) :
    ¬ opts.sslCAFile = "" ∧
    (ev = Event.LoadClientCAFile opts.sslCAFile ∨ ev = Event.SetClientCAList ∨
     ev = Event.LoadVerifyLocations opts.sslCAFile ∨
     ev = Event.SetVerify (caVerify opts)) := by
  unfold caStage at h
  repeat' split at h
  all_goals simp_all [caVerify]
  all_goals tauto

/-- The CRL stage emits events only when a CRL file is given, and only the
store-flag, add-lookup and CRL-load events. -/
theorem crlStage_mem (opts : ToolOptions) (env : Env) (c : Ctx) (ev : Event)
    (h : ev ∈ (crlStage opts env c).2) :
    ¬ opts.sslCRLFile = "" ∧
    (ev = Event.StoreSetFlagsCRLCheck ∨ ev = Event.AddLookup ∨
     ev = Event.LoadCRLFile opts.sslCRLFile) := by
  unfold crlStage at h
  repeat' split at h
  all_goals simp_all
  all_goals tauto

/-- The protocol-options, mode and session-cache fields of a successfully
built context are unconditionally set. -/
theorem ctxSpec_fixed_fields (opts : ToolOptions) (env : Env) :
    (ctxSpec opts env).optionsOpAll = true ∧ (ctxSpec opts env).optionsNoSSLv2 = true ∧
    (ctxSpec opts env).modeAutoRetry = true ∧ (ctxSpec opts env).sessionCacheOff = true := by
  unfold ctxSpec crlUpdIf crlUpd caUpdIf caUpd modeUpd pemUpdIf pemUpd ctx0
  split_ifs <;> simp

/-- The peer-verification mode of a successfully built context. -/
theorem ctxSpec_verifyMode (opts : ToolOptions) (env : Env) :
    (ctxSpec opts env).verifyMode =
      if opts.sslCAFile = "" then none else some (caVerify opts) := by
  unfold ctxSpec crlUpdIf crlUpd caUpdIf caUpd modeUpd pemUpdIf pemUpd ctx0
  split_ifs <;> simp

/-- Flipping the allow-invalid-cert flag changes the result of setupCtx only
in the chosen verify mode: contexts agree after erasing `verifyMode`, traces
agree after erasing the SetVerify argument, and errors agree exactly. -/
theorem setupCtx_cert_flag_scrub (opts : ToolOptions) (env : Env) (b : Bool) :
    Except.map ctxNoVerify (setupCtx { opts with sslAllowInvalidCert := b } env).1 =
      Except.map ctxNoVerify (setupCtx opts env).1 ∧
    List.map scrubVerifyEvent (setupCtx { opts with sslAllowInvalidCert := b } env).2 =
      List.map scrubVerifyEvent (setupCtx opts env).2 := by
  cases hf : env.fipsErr with
  | some e =>
    simp [*, setupCtx, initStage_ok, initStage_err_fips, initStage_err_newctx,
      pemStage_empty, pemStage_ok, pemStage_err_cert, pemStage_err_key, pemStage_err_check,
      modeStage_eq, caStage_empty, caStage_ok, caStage_err_load, caStage_err_verify,
      crlStage_empty, crlStage_ok, crlStage_err, andThen_ok, andThen_err, ctxNoVerify,
      scrubVerifyEvent, initTr, modeTr, pemTr, keyEvt, caTr, crlTr, pemUpd, modeUpd,
      caUpd, crlUpd, caVerify, apply_ite] <;>
      cases b <;> cases hb2 : opts.sslAllowInvalidCert <;>
      by_cases hpw : opts.sslPEMKeyPassword = "" <;>
      try simp [hb2, hpw, ctxNoVerify, scrubVerifyEvent, Except.map, andThen_err, andThen_ok,
        modeStage_eq]
  | none =>
  cases hn : env.newCtxErr with
  | some e =>
    simp [*, setupCtx, initStage_ok, initStage_err_fips, initStage_err_newctx,
      pemStage_empty, pemStage_ok, pemStage_err_cert, pemStage_err_key, pemStage_err_check,
      modeStage_eq, caStage_empty, caStage_ok, caStage_err_load, caStage_err_verify,
      crlStage_empty, crlStage_ok, crlStage_err, andThen_ok, andThen_err, ctxNoVerify,
      scrubVerifyEvent, initTr, modeTr, pemTr, keyEvt, caTr, crlTr, pemUpd, modeUpd,
      caUpd, crlUpd, caVerify, apply_ite] <;>
      cases b <;> cases hb2 : opts.sslAllowInvalidCert <;>
      by_cases hpw : opts.sslPEMKeyPassword = "" <;>
      try simp [hb2, hpw, ctxNoVerify, scrubVerifyEvent, Except.map, andThen_err, andThen_ok,
        modeStage_eq]
  | none =>
  by_cases hpem : opts.sslPEMKeyFile = ""
  · by_cases hca : opts.sslCAFile = ""
    · by_cases hcrl : opts.sslCRLFile = ""
      · simp [*, setupCtx, initStage_ok, initStage_err_fips, initStage_err_newctx,
      pemStage_empty, pemStage_ok, pemStage_err_cert, pemStage_err_key, pemStage_err_check,
      modeStage_eq, caStage_empty, caStage_ok, caStage_err_load, caStage_err_verify,
      crlStage_empty, crlStage_ok, crlStage_err, andThen_ok, andThen_err, ctxNoVerify,
      scrubVerifyEvent, initTr, modeTr, pemTr, keyEvt, caTr, crlTr, pemUpd, modeUpd,
      caUpd, crlUpd, caVerify, apply_ite] <;>
      cases b <;> cases hb2 : opts.sslAllowInvalidCert <;>
      by_cases hpw : opts.sslPEMKeyPassword = "" <;>
      try simp [hb2, hpw, ctxNoVerify, scrubVerifyEvent, Except.map, andThen_err, andThen_ok,
        modeStage_eq]
      · cases hal : env.addLookupErr with
        | some e =>
          simp [*, setupCtx, initStage_ok, initStage_err_fips, initStage_err_newctx,
      pemStage_empty, pemStage_ok, pemStage_err_cert, pemStage_err_key, pemStage_err_check,
      modeStage_eq, caStage_empty, caStage_ok, caStage_err_load, caStage_err_verify,
      crlStage_empty, crlStage_ok, crlStage_err, andThen_ok, andThen_err, ctxNoVerify,
      scrubVerifyEvent, initTr, modeTr, pemTr, keyEvt, caTr, crlTr, pemUpd, modeUpd,
      caUpd, crlUpd, caVerify, apply_ite] <;>
      cases b <;> cases hb2 : opts.sslAllowInvalidCert <;>
      by_cases hpw : opts.sslPEMKeyPassword = "" <;>
      try simp [hb2, hpw, ctxNoVerify, scrubVerifyEvent, Except.map, andThen_err, andThen_ok,
        modeStage_eq]
        | none =>
          simp [*, setupCtx, initStage_ok, initStage_err_fips, initStage_err_newctx,
      pemStage_empty, pemStage_ok, pemStage_err_cert, pemStage_err_key, pemStage_err_check,
      modeStage_eq, caStage_empty, caStage_ok, caStage_err_load, caStage_err_verify,
      crlStage_empty, crlStage_ok, crlStage_err, andThen_ok, andThen_err, ctxNoVerify,
      scrubVerifyEvent, initTr, modeTr, pemTr, keyEvt, caTr, crlTr, pemUpd, modeUpd,
      caUpd, crlUpd, caVerify, apply_ite] <;>
      cases b <;> cases hb2 : opts.sslAllowInvalidCert <;>
      by_cases hpw : opts.sslPEMKeyPassword = "" <;>
      try simp [hb2, hpw, ctxNoVerify, scrubVerifyEvent, Except.map, andThen_err, andThen_ok,
        modeStage_eq]
    · cases hlc : env.loadClientCAErr with
      | some e =>
        simp [*, setupCtx, initStage_ok, initStage_err_fips, initStage_err_newctx,
      pemStage_empty, pemStage_ok, pemStage_err_cert, pemStage_err_key, pemStage_err_check,
      modeStage_eq, caStage_empty, caStage_ok, caStage_err_load, caStage_err_verify,
      crlStage_empty, crlStage_ok, crlStage_err, andThen_ok, andThen_err, ctxNoVerify,
      scrubVerifyEvent, initTr, modeTr, pemTr, keyEvt, caTr, crlTr, pemUpd, modeUpd,
      caUpd, crlUpd, caVerify, apply_ite] <;>
      cases b <;> cases hb2 : opts.sslAllowInvalidCert <;>
      by_cases hpw : opts.sslPEMKeyPassword = "" <;>
      try simp [hb2, hpw, ctxNoVerify, scrubVerifyEvent, Except.map, andThen_err, andThen_ok,
        modeStage_eq]
      | none =>
      cases hvl : env.verifyLocErr with
      | some e =>
        simp [*, setupCtx, initStage_ok, initStage_err_fips, initStage_err_newctx,
      pemStage_empty, pemStage_ok, pemStage_err_cert, pemStage_err_key, pemStage_err_check,
      modeStage_eq, caStage_empty, caStage_ok, caStage_err_load, caStage_err_verify,
      crlStage_empty, crlStage_ok, crlStage_err, andThen_ok, andThen_err, ctxNoVerify,
      scrubVerifyEvent, initTr, modeTr, pemTr, keyEvt, caTr, crlTr, pemUpd, modeUpd,
      caUpd, crlUpd, caVerify, apply_ite] <;>
      cases b <;> cases hb2 : opts.sslAllowInvalidCert <;>
      by_cases hpw : opts.sslPEMKeyPassword = "" <;>
      try simp [hb2, hpw, ctxNoVerify, scrubVerifyEvent, Except.map, andThen_err, andThen_ok,
        modeStage_eq]
      | none =>
      by_cases hcrl : opts.sslCRLFile = ""
      · simp [*, setupCtx, initStage_ok, initStage_err_fips, initStage_err_newctx,
      pemStage_empty, pemStage_ok, pemStage_err_cert, pemStage_err_key, pemStage_err_check,
      modeStage_eq, caStage_empty, caStage_ok, caStage_err_load, caStage_err_verify,
      crlStage_empty, crlStage_ok, crlStage_err, andThen_ok, andThen_err, ctxNoVerify,
      scrubVerifyEvent, initTr, modeTr, pemTr, keyEvt, caTr, crlTr, pemUpd, modeUpd,
      caUpd, crlUpd, caVerify, apply_ite] <;>
      cases b <;> cases hb2 : opts.sslAllowInvalidCert <;>
      by_cases hpw : opts.sslPEMKeyPassword = "" <;>
      try simp [hb2, hpw, ctxNoVerify, scrubVerifyEvent, Except.map, andThen_err, andThen_ok,
        modeStage_eq]
      · cases hal : env.addLookupErr with
        | some e =>
          simp [*, setupCtx, initStage_ok, initStage_err_fips, initStage_err_newctx,
      pemStage_empty, pemStage_ok, pemStage_err_cert, pemStage_err_key, pemStage_err_check,
      modeStage_eq, caStage_empty, caStage_ok, caStage_err_load, caStage_err_verify,
      crlStage_empty, crlStage_ok, crlStage_err, andThen_ok, andThen_err, ctxNoVerify,
      scrubVerifyEvent, initTr, modeTr, pemTr, keyEvt, caTr, crlTr, pemUpd, modeUpd,
      caUpd, crlUpd, caVerify, apply_ite] <;>
      cases b <;> cases hb2 : opts.sslAllowInvalidCert <;>
      by_cases hpw : opts.sslPEMKeyPassword = "" <;>
      try simp [hb2, hpw, ctxNoVerify, scrubVerifyEvent, Except.map, andThen_err, andThen_ok,
        modeStage_eq]
        | none =>
          simp [*, setupCtx, initStage_ok, initStage_err_fips, initStage_err_newctx,
      pemStage_empty, pemStage_ok, pemStage_err_cert, pemStage_err_key, pemStage_err_check,
      modeStage_eq, caStage_empty, caStage_ok, caStage_err_load, caStage_err_verify,
      crlStage_empty, crlStage_ok, crlStage_err, andThen_ok, andThen_err, ctxNoVerify,
      scrubVerifyEvent, initTr, modeTr, pemTr, keyEvt, caTr, crlTr, pemUpd, modeUpd,
      caUpd, crlUpd, caVerify, apply_ite] <;>
      cases b <;> cases hb2 : opts.sslAllowInvalidCert <;>
      by_cases hpw : opts.sslPEMKeyPassword = "" <;>
      try simp [hb2, hpw, ctxNoVerify, scrubVerifyEvent, Except.map, andThen_err, andThen_ok,
        modeStage_eq]
  · cases hcc : env.certChainErr with
    | some e =>
      simp [*, setupCtx, initStage_ok, initStage_err_fips, initStage_err_newctx,
      pemStage_empty, pemStage_ok, pemStage_err_cert, pemStage_err_key, pemStage_err_check,
      modeStage_eq, caStage_empty, caStage_ok, caStage_err_load, caStage_err_verify,
      crlStage_empty, crlStage_ok, crlStage_err, andThen_ok, andThen_err, ctxNoVerify,
      scrubVerifyEvent, initTr, modeTr, pemTr, keyEvt, caTr, crlTr, pemUpd, modeUpd,
      caUpd, crlUpd, caVerify, apply_ite] <;>
      cases b <;> cases hb2 : opts.sslAllowInvalidCert <;>
      by_cases hpw : opts.sslPEMKeyPassword = "" <;>
      try simp [hb2, hpw, ctxNoVerify, scrubVerifyEvent, Except.map, andThen_err, andThen_ok,
        modeStage_eq]
    | none =>
    cases hpk : env.privKeyErr with
    | some e =>
      simp [*, setupCtx, initStage_ok, initStage_err_fips, initStage_err_newctx,
      pemStage_empty, pemStage_ok, pemStage_err_cert, pemStage_err_key, pemStage_err_check,
      modeStage_eq, caStage_empty, caStage_ok, caStage_err_load, caStage_err_verify,
      crlStage_empty, crlStage_ok, crlStage_err, andThen_ok, andThen_err, ctxNoVerify,
      scrubVerifyEvent, initTr, modeTr, pemTr, keyEvt, caTr, crlTr, pemUpd, modeUpd,
      caUpd, crlUpd, caVerify, apply_ite] <;>
      cases b <;> cases hb2 : opts.sslAllowInvalidCert <;>
      by_cases hpw : opts.sslPEMKeyPassword = "" <;>
      try simp [hb2, hpw, ctxNoVerify, scrubVerifyEvent, Except.map, andThen_err, andThen_ok,
        modeStage_eq]
    | none =>
    cases hck : env.checkKeyErr with
    | some e =>
      simp [*, setupCtx, initStage_ok, initStage_err_fips, initStage_err_newctx,
      pemStage_empty, pemStage_ok, pemStage_err_cert, pemStage_err_key, pemStage_err_check,
      modeStage_eq, caStage_empty, caStage_ok, caStage_err_load, caStage_err_verify,
      crlStage_empty, crlStage_ok, crlStage_err, andThen_ok, andThen_err, ctxNoVerify,
      scrubVerifyEvent, initTr, modeTr, pemTr, keyEvt, caTr, crlTr, pemUpd, modeUpd,
      caUpd, crlUpd, caVerify, apply_ite] <;>
      cases b <;> cases hb2 : opts.sslAllowInvalidCert <;>
      by_cases hpw : opts.sslPEMKeyPassword = "" <;>
      try simp [hb2, hpw, ctxNoVerify, scrubVerifyEvent, Except.map, andThen_err, andThen_ok,
        modeStage_eq]
    | none =>
    by_cases hca : opts.sslCAFile = ""
    · by_cases hcrl : opts.sslCRLFile = ""
      · simp [*, setupCtx, initStage_ok, initStage_err_fips, initStage_err_newctx,
      pemStage_empty, pemStage_ok, pemStage_err_cert, pemStage_err_key, pemStage_err_check,
      modeStage_eq, caStage_empty, caStage_ok, caStage_err_load, caStage_err_verify,
      crlStage_empty, crlStage_ok, crlStage_err, andThen_ok, andThen_err, ctxNoVerify,
      scrubVerifyEvent, initTr, modeTr, pemTr, keyEvt, caTr, crlTr, pemUpd, modeUpd,
      caUpd, crlUpd, caVerify, apply_ite] <;>
      cases b <;> cases hb2 : opts.sslAllowInvalidCert <;>
      by_cases hpw : opts.sslPEMKeyPassword = "" <;>
      try simp [hb2, hpw, ctxNoVerify, scrubVerifyEvent, Except.map, andThen_err, andThen_ok,
        modeStage_eq]
      · cases hal : env.addLookupErr with
        | some e =>
          simp [*, setupCtx, initStage_ok, initStage_err_fips, initStage_err_newctx,
      pemStage_empty, pemStage_ok, pemStage_err_cert, pemStage_err_key, pemStage_err_check,
      modeStage_eq, caStage_empty, caStage_ok, caStage_err_load, caStage_err_verify,
      crlStage_empty, crlStage_ok, crlStage_err, andThen_ok, andThen_err, ctxNoVerify,
      scrubVerifyEvent, initTr, modeTr, pemTr, keyEvt, caTr, crlTr, pemUpd, modeUpd,
      caUpd, crlUpd, caVerify, apply_ite] <;>
      cases b <;> cases hb2 : opts.sslAllowInvalidCert <;>
      by_cases hpw : opts.sslPEMKeyPassword = "" <;>
      try simp [hb2, hpw, ctxNoVerify, scrubVerifyEvent, Except.map, andThen_err, andThen_ok,
        modeStage_eq]
        | none =>
          simp [*, setupCtx, initStage_ok, initStage_err_fips, initStage_err_newctx,
      pemStage_empty, pemStage_ok, pemStage_err_cert, pemStage_err_key, pemStage_err_check,
      modeStage_eq, caStage_empty, caStage_ok, caStage_err_load, caStage_err_verify,
      crlStage_empty, crlStage_ok, crlStage_err, andThen_ok, andThen_err, ctxNoVerify,
      scrubVerifyEvent, initTr, modeTr, pemTr, keyEvt, caTr, crlTr, pemUpd, modeUpd,
      caUpd, crlUpd, caVerify, apply_ite] <;>
      cases b <;> cases hb2 : opts.sslAllowInvalidCert <;>
      by_cases hpw : opts.sslPEMKeyPassword = "" <;>
      try simp [hb2, hpw, ctxNoVerify, scrubVerifyEvent, Except.map, andThen_err, andThen_ok,
        modeStage_eq]
    · cases hlc : env.loadClientCAErr with
      | some e =>
        simp [*, setupCtx, initStage_ok, initStage_err_fips, initStage_err_newctx,
      pemStage_empty, pemStage_ok, pemStage_err_cert, pemStage_err_key, pemStage_err_check,
      modeStage_eq, caStage_empty, caStage_ok, caStage_err_load, caStage_err_verify,
      crlStage_empty, crlStage_ok, crlStage_err, andThen_ok, andThen_err, ctxNoVerify,
      scrubVerifyEvent, initTr, modeTr, pemTr, keyEvt, caTr, crlTr, pemUpd, modeUpd,
      caUpd, crlUpd, caVerify, apply_ite] <;>
      cases b <;> cases hb2 : opts.sslAllowInvalidCert <;>
      by_cases hpw : opts.sslPEMKeyPassword = "" <;>
      try simp [hb2, hpw, ctxNoVerify, scrubVerifyEvent, Except.map, andThen_err, andThen_ok,
        modeStage_eq]
      | none =>
      cases hvl : env.verifyLocErr with
      | some e =>
        simp [*, setupCtx, initStage_ok, initStage_err_fips, initStage_err_newctx,
      pemStage_empty, pemStage_ok, pemStage_err_cert, pemStage_err_key, pemStage_err_check,
      modeStage_eq, caStage_empty, caStage_ok, caStage_err_load, caStage_err_verify,
      crlStage_empty, crlStage_ok, crlStage_err, andThen_ok, andThen_err, ctxNoVerify,
      scrubVerifyEvent, initTr, modeTr, pemTr, keyEvt, caTr, crlTr, pemUpd, modeUpd,
      caUpd, crlUpd, caVerify, apply_ite] <;>
      cases b <;> cases hb2 : opts.sslAllowInvalidCert <;>
      by_cases hpw : opts.sslPEMKeyPassword = "" <;>
      try simp [hb2, hpw, ctxNoVerify, scrubVerifyEvent, Except.map, andThen_err, andThen_ok,
        modeStage_eq]
      | none =>
      by_cases hcrl : opts.sslCRLFile = ""
      · simp [*, setupCtx, initStage_ok, initStage_err_fips, initStage_err_newctx,
      pemStage_empty, pemStage_ok, pemStage_err_cert, pemStage_err_key, pemStage_err_check,
      modeStage_eq, caStage_empty, caStage_ok, caStage_err_load, caStage_err_verify,
      crlStage_empty, crlStage_ok, crlStage_err, andThen_ok, andThen_err, ctxNoVerify,
      scrubVerifyEvent, initTr, modeTr, pemTr, keyEvt, caTr, crlTr, pemUpd, modeUpd,
      caUpd, crlUpd, caVerify, apply_ite] <;>
      cases b <;> cases hb2 : opts.sslAllowInvalidCert <;>
      by_cases hpw : opts.sslPEMKeyPassword = "" <;>
      try simp [hb2, hpw, ctxNoVerify, scrubVerifyEvent, Except.map, andThen_err, andThen_ok,
        modeStage_eq]
      · cases hal : env.addLookupErr with
        | some e =>
          simp [*, setupCtx, initStage_ok, initStage_err_fips, initStage_err_newctx,
      pemStage_empty, pemStage_ok, pemStage_err_cert, pemStage_err_key, pemStage_err_check,
      modeStage_eq, caStage_empty, caStage_ok, caStage_err_load, caStage_err_verify,
      crlStage_empty, crlStage_ok, crlStage_err, andThen_ok, andThen_err, ctxNoVerify,
      scrubVerifyEvent, initTr, modeTr, pemTr, keyEvt, caTr, crlTr, pemUpd, modeUpd,
      caUpd, crlUpd, caVerify, apply_ite] <;>
      cases b <;> cases hb2 : opts.sslAllowInvalidCert <;>
      by_cases hpw : opts.sslPEMKeyPassword = "" <;>
      try simp [hb2, hpw, ctxNoVerify, scrubVerifyEvent, Except.map, andThen_err, andThen_ok,
        modeStage_eq]
        | none =>
          simp [*, setupCtx, initStage_ok, initStage_err_fips, initStage_err_newctx,
      pemStage_empty, pemStage_ok, pemStage_err_cert, pemStage_err_key, pemStage_err_check,
      modeStage_eq, caStage_empty, caStage_ok, caStage_err_load, caStage_err_verify,
      crlStage_empty, crlStage_ok, crlStage_err, andThen_ok, andThen_err, ctxNoVerify,
      scrubVerifyEvent, initTr, modeTr, pemTr, keyEvt, caTr, crlTr, pemUpd, modeUpd,
      caUpd, crlUpd, caVerify, apply_ite] <;>
      cases b <;> cases hb2 : opts.sslAllowInvalidCert <;>
      by_cases hpw : opts.sslPEMKeyPassword = "" <;>
      try simp [hb2, hpw, ctxNoVerify, scrubVerifyEvent, Except.map, andThen_err, andThen_ok,
        modeStage_eq]

/-- C4: with a CA file set, a successful build gives the context the
peer-verification mode "verify none" exactly when allow-invalid-cert is set
and "require and verify" otherwise, emits the corresponding SetVerify call,
and this verify-mode choice is the only part of context construction whose
outcome depends on the allow-invalid-cert flag: flipping the flag leaves the
result unchanged after erasing the verify mode from the context and the
SetVerify argument from the trace. -/
theorem setupCtx_verify_mode_from_allow_invalid_cert (opts : ToolOptions) (env : Env)
    (b : Bool) (c : Ctx) (tr : List Event) (hca : ¬ opts.sslCAFile = "")
    (h : setupCtx opts env = (Except.ok c, tr)) :
    c.verifyMode = some (if opts.sslAllowInvalidCert then VerifyOption.VerifyNone
      else VerifyOption.VerifyPeer) ∧
    Event.SetVerify (if opts.sslAllowInvalidCert then VerifyOption.VerifyNone
      else VerifyOption.VerifyPeer) ∈ tr ∧
    Except.map ctxNoVerify (setupCtx { opts with sslAllowInvalidCert := b } env).1 =
      Except.map ctxNoVerify (setupCtx opts env).1 ∧
    List.map scrubVerifyEvent (setupCtx { opts with sslAllowInvalidCert := b } env).2 =
      List.map scrubVerifyEvent (setupCtx opts env).2 := by
  obtain ⟨hc, htr⟩ := setupCtx_ok_char opts env c tr h
  subst hc htr
  refine ⟨?_, ?_, (setupCtx_cert_flag_scrub opts env b).1,
    (setupCtx_cert_flag_scrub opts env b).2⟩
  · rw [ctxSpec_verifyMode]
    simp [hca, caVerify]
  · simp [trSpec, caTrIf, hca, caTr, caVerify]

/-- C4 witness: a concrete successful build with a CA file and the flag
clear gets verify mode "require and verify". -/
theorem setupCtx_verify_mode_from_allow_invalid_cert_witness :
    (ctxSpec c4opts {}).verifyMode = some (if c4opts.sslAllowInvalidCert then
      VerifyOption.VerifyNone else VerifyOption.VerifyPeer) ∧
    Event.SetVerify (if c4opts.sslAllowInvalidCert then VerifyOption.VerifyNone
      else VerifyOption.VerifyPeer) ∈ trSpec c4opts ∧
    Except.map ctxNoVerify (setupCtx { c4opts with sslAllowInvalidCert := true } {}).1 =
      Except.map ctxNoVerify (setupCtx c4opts {}).1 ∧
    List.map scrubVerifyEvent (setupCtx { c4opts with sslAllowInvalidCert := true } {}).2 =
      List.map scrubVerifyEvent (setupCtx c4opts {}).2 :=
  setupCtx_verify_mode_from_allow_invalid_cert c4opts {} true (ctxSpec c4opts {})
    (trSpec c4opts) (by decide) (by rfl)

/-- C7: every successfully built context has all bug-workaround options on,
SSLv2 off, auto-retry on and session caching off; the trace records the
SetOptions, SetCipherList, SetMode and SetSessionCacheMode calls; and the
only cipher policy ever requested is the fixed string
"HIGH:!EXPORT:!aNULL@STRENGTH", independent of the options record. -/
theorem setupCtx_unconditional_hardening (opts : ToolOptions) (env : Env) (c : Ctx)
    (tr : List Event) (h : setupCtx opts env = (Except.ok c, tr)) :
    c.optionsOpAll = true ∧ c.optionsNoSSLv2 = true ∧ c.modeAutoRetry = true ∧
    c.sessionCacheOff = true ∧
    Event.SetOptions ∈ tr ∧ Event.SetCipherList cipherString ∈ tr ∧
    Event.SetModeAutoRetry ∈ tr ∧ Event.SetSessionCacheOff ∈ tr ∧
    (∀ s, Event.SetCipherList s ∈ tr → s = cipherString) ∧
    cipherString = "HIGH:!EXPORT:!aNULL@STRENGTH" := by
  obtain ⟨hc, htr⟩ := setupCtx_ok_char opts env c tr h
  subst hc htr
  obtain ⟨h1, h2, h3, h4⟩ := ctxSpec_fixed_fields opts env
  refine ⟨h1, h2, h3, h4, ?_, ?_, ?_, ?_, ?_, rfl⟩
  · simp [trSpec, initTr]
  · simp [trSpec, initTr]
  · simp [trSpec, modeTr]
  · simp [trSpec, modeTr]
  · intro s hs
    have hs2 : Event.SetCipherList s ∈ (setupCtx opts env).2 := by
      rw [h]
      exact hs
    rcases setupCtx_mem_cases opts env _ hs2 with h5 | ⟨c5, h5⟩ | ⟨c5, h5⟩ | ⟨c5, h5⟩ | ⟨c5, h5⟩
    · rcases initStage_mem opts env _ h5 with h6 | h6 | h6 | h6 <;> simp_all
    · rcases (pemStage_mem opts env c5 _ h5).2 with h6 | h6 | h6 | h6 <;> simp_all
    · rcases modeStage_mem c5 _ h5 with h6 | h6 <;> simp_all
    · rcases (caStage_mem opts env c5 _ h5).2 with h6 | h6 | h6 | h6 <;> simp_all
    · rcases (crlStage_mem opts env c5 _ h5).2 with h6 | h6 | h6 <;> simp_all

/-- C7 witness: the hardening settings on a concrete successful build. -/
theorem setupCtx_unconditional_hardening_witness :
    (ctxSpec c1opts {}).optionsOpAll = true ∧ (ctxSpec c1opts {}).optionsNoSSLv2 = true ∧
    (ctxSpec c1opts {}).modeAutoRetry = true ∧ (ctxSpec c1opts {}).sessionCacheOff = true ∧
    Event.SetOptions ∈ trSpec c1opts ∧ Event.SetCipherList cipherString ∈ trSpec c1opts ∧
    Event.SetModeAutoRetry ∈ trSpec c1opts ∧ Event.SetSessionCacheOff ∈ trSpec c1opts ∧
    (∀ s, Event.SetCipherList s ∈ trSpec c1opts → s = cipherString) ∧
    cipherString = "HIGH:!EXPORT:!aNULL@STRENGTH" :=
  setupCtx_unconditional_hardening c1opts {} (ctxSpec c1opts {}) (trSpec c1opts) (by rfl)

/-- C8: every successful Configure hands the session layer a dial info whose
timeout is the fixed `DefaultSSLDialTimeout`, which is 3 seconds. -/
theorem configure_dial_timeout (self : SSLDBConnector) (opts : ToolOptions) (env : Env)
    (h : (Configure self opts env).2.1 = Except.ok ()) :
    Option.map DialInfo.timeout ((Configure self opts env).1).dialInfo =
      some DefaultSSLDialTimeout ∧
    DefaultSSLDialTimeout = 3 * timeSecond ∧ timeSecond = 1000000000 := by
  rcases hs : setupCtx opts env with ⟨r, tr⟩
  cases r with
  | error e => simp [Configure, hs] at h
  | ok c =>
    refine ⟨?_, by norm_num [DefaultSSLDialTimeout, timeSecond], rfl⟩
    simp [Configure, hs]

/-- C8 witness: a concrete successful Configure carries the 3-second timeout. -/
theorem configure_dial_timeout_witness :
    Option.map DialInfo.timeout ((Configure {} {} {}).1).dialInfo =
      some DefaultSSLDialTimeout ∧
    DefaultSSLDialTimeout = 3 * timeSecond ∧ timeSecond = 1000000000 :=
  configure_dial_timeout {} {} {} (by rfl)

/-- C10: with an empty CA-file path the builder never calls SetVerify at
all, and on success the built context keeps the freshly created context's
default (absent) peer-verification mode. -/
theorem setupCtx_empty_ca_no_verify (opts : ToolOptions) (env : Env) (v : VerifyOption)
    (c : Ctx) (tr : List Event) (hca : opts.sslCAFile = "")
    (h : setupCtx opts env = (Except.ok c, tr)) :
    c.verifyMode = none ∧ Event.SetVerify v ∉ tr ∧
    Event.SetVerify v ∉ (setupCtx opts env).2 := by
  obtain ⟨hc, htr⟩ := setupCtx_ok_char opts env c tr h
  have hnot : Event.SetVerify v ∉ (setupCtx opts env).2 := by
    intro hmem
    rcases setupCtx_mem_cases opts env _ hmem with h5 | ⟨c5, h5⟩ | ⟨c5, h5⟩ | ⟨c5, h5⟩ | ⟨c5, h5⟩
    · rcases initStage_mem opts env _ h5 with h6 | h6 | h6 | h6 <;> simp_all
    · rcases (pemStage_mem opts env c5 _ h5).2 with h6 | h6 | h6 | h6 <;> simp_all
    · rcases modeStage_mem c5 _ h5 with h6 | h6 <;> simp_all
    · exact (caStage_mem opts env c5 _ h5).1 hca
    · rcases (crlStage_mem opts env c5 _ h5).2 with h6 | h6 | h6 <;> simp_all
  subst hc
  refine ⟨?_, ?_, hnot⟩
  · rw [ctxSpec_verifyMode]
    simp [hca]
  · intro hmem
    exact hnot (by rw [h]; exact hmem)

/-- C10 witness: the all-defaults options build succeeds with no SetVerify
call and an unset verify mode. -/
theorem setupCtx_empty_ca_no_verify_witness :
    (ctxSpec {} {}).verifyMode = none ∧
    Event.SetVerify VerifyOption.VerifyPeer ∉ trSpec ({} : ToolOptions) ∧
    Event.SetVerify VerifyOption.VerifyPeer ∉ (setupCtx {} {}).2 :=
  setupCtx_empty_ca_no_verify {} {} VerifyOption.VerifyPeer (ctxSpec {} {})
    (trSpec {}) (by rfl) (by rfl)

/-- C1 witness: with a CA file set and both allow-invalid flags clear,
Configure succeeds and the derived flag is strict (zero). -/
theorem configure_strictness_flag_witness :
    ∃ di, ((Configure {} c1opts {}).1).dialInfo = some di ∧
      (di.dialFlags = DialFlags.insecureSkipHostVerification ↔
        (c1opts.sslAllowInvalidCert = true ∨ c1opts.sslAllowInvalidHost = true ∨
          c1opts.sslCAFile = "")) ∧
      (¬ (c1opts.sslAllowInvalidCert = true ∨ c1opts.sslAllowInvalidHost = true ∨
          c1opts.sslCAFile = "") → di.dialFlags = DialFlags.zero) ∧
      (∀ denv : DialEnv, denv.dialerInvoked = true →
        Event.OpenSSLDial di.dialFlags ∈
          (GetNewSession ((Configure {} c1opts {}).1) denv).2.2) :=
  configure_strictness_flag {} c1opts {} (by rfl)

/-- C2: with a CRL file whose load fails (and every other library call
succeeding), Configure nevertheless succeeds: the error returned by
LoadCRLFile is discarded, the CRL-load call is made, and the built context
records the CRL as not loaded while the configuration is reported as ok. -/
theorem configure_crl_load_failure_ignored :
    (Configure {} c2opts c2env).2.1 = Except.ok () ∧
    c2env.loadCRLErr = some "no such file or directory" ∧
    Event.LoadCRLFile "revoked.crl" ∈ (Configure {} c2opts c2env).2.2 ∧
    Option.map Ctx.crlLoaded ((Configure {} c2opts c2env).1).ctx = some false ∧
    Option.map Ctx.storeCRLCheck ((Configure {} c2opts c2env).1).ctx = some true := by
  refine ⟨rfl, rfl, ?_, rfl, rfl⟩
  decide

/-- C3: when the session layer fails on a dial attempt for which the dialer
recorded a low-level openssl error, GetNewSession surfaces a message that
concatenates both errors; when no low-level error was recorded, the
session-layer error is returned unmodified. -/
theorem getNewSession_error_enrichment (self : SSLDBConnector) (di : DialInfo)
    (denv : DialEnv) (e : String) (hdi : self.dialInfo = some di)
    (hinv : denv.dialerInvoked = true) (hse : denv.sessionErr = some e) :
    (∀ de, denv.opensslDialErr = some de →
      (GetNewSession self denv).2.1 = SessionResult.err (e ++ ", openssl error: " ++ de)) ∧
    (denv.opensslDialErr = none →
      (GetNewSession self denv).2.1 = SessionResult.err e) := by
  constructor
  · intro de hde
    simp [GetNewSession, hdi, hinv, hse, hde]
  · intro hde
    simp [GetNewSession, hdi, hinv, hse, hde]

/-- C3 witness: a concrete failed dial with a recorded openssl error yields
the concatenated message; with none recorded the session error is returned
as is. -/
theorem getNewSession_error_enrichment_witness :
    (∀ de, c3denv.opensslDialErr = some de →
      (GetNewSession c3conn c3denv).2.1 =
        SessionResult.err ("no reachable servers" ++ ", openssl error: " ++ de)) ∧
    (c3denv.opensslDialErr = none →
      (GetNewSession c3conn c3denv).2.1 = SessionResult.err "no reachable servers") :=
  getNewSession_error_enrichment c3conn c3di c3denv "no reachable servers"
    (by rfl) (by rfl) (by rfl)

/-- C6 counterexample: on a connector never configured, GetNewSession does
not fail with any configured-check error: it hands the absent dial info
straight to the session layer (the session-layer call appears in the trace)
and the outcome is the nil-dial-info panic, not an error value. -/
theorem getNewSession_unconfigured_counterexample :
    (GetNewSession {} {}).2.1 = SessionResult.panicNilDeref ∧
    Event.MgoDialWithInfo ∈ (GetNewSession {} {}).2.2 := by
  constructor
  · rfl
  · decide

/-- C6 amended: GetNewSession performs no configured-check; with no dial
info (the state after no Configure call, and after a failed Configure on a
fresh connector, since a failed Configure leaves the dial info untouched)
it invokes the session layer on the nil dial info, which panics. -/
theorem getNewSession_unconfigured (self : SSLDBConnector) (denv : DialEnv)
    (opts : ToolOptions) (env : Env) (e : String) (h : self.dialInfo = none)
    (hfail : (Configure self opts env).2.1 = Except.error e) :
    GetNewSession self denv = (self, SessionResult.panicNilDeref, [Event.MgoDialWithInfo]) ∧
    ((Configure self opts env).1).dialInfo = none ∧
    (({} : SSLDBConnector)).dialInfo = none := by
  refine ⟨?_, ?_, rfl⟩
  · simp [GetNewSession, h]
  · rcases hs : setupCtx opts env with ⟨r, tr⟩
    cases r with
    | error m => simp [Configure, hs, h]
    | ok c => simp [Configure, hs] at hfail

/-- C6 amended witness: a fresh connector with a failing FIPS call. -/
theorem getNewSession_unconfigured_witness :
    GetNewSession {} {} = ({}, SessionResult.panicNilDeref, [Event.MgoDialWithInfo]) ∧
    ((Configure {} {} c6env).1).dialInfo = none ∧
    (({} : SSLDBConnector)).dialInfo = none :=
  getNewSession_unconfigured {} {} {} c6env
    "setupCtx: couldn't set FIPS mode to false: fips unsupported" (by rfl) (by rfl)

/-- C9: the result of the SetCipherList call is discarded: whether Configure
succeeds, the error it returns, the dial info it builds and the sequence of
library calls it makes are all identical whether the cipher-policy call
failed or succeeded. -/
theorem configure_ignores_cipher_list_result (self : SSLDBConnector) (opts : ToolOptions)
    (env : Env) (e : String) :
    (Configure self opts { env with cipherListErr := some e }).2.1 =
      (Configure self opts { env with cipherListErr := none }).2.1 ∧
    ((Configure self opts { env with cipherListErr := some e }).1).dialInfo =
      ((Configure self opts { env with cipherListErr := none }).1).dialInfo ∧
    (setupCtx opts { env with cipherListErr := some e }).2 =
      (setupCtx opts { env with cipherListErr := none }).2 := by
  cases hf : env.fipsErr with
  | some e2 => by_cases hpw : opts.sslPEMKeyPassword = "" <;>
        simp [*, Configure, setupCtx, initStage_ok, initStage_err_fips, initStage_err_newctx,
          pemStage_empty, pemStage_ok, pemStage_err_cert, pemStage_err_key, pemStage_err_check,
          modeStage_eq, caStage_empty, caStage_ok, caStage_err_load, caStage_err_verify,
          crlStage_empty, crlStage_ok, crlStage_err, andThen_ok, andThen_err]
  | none =>
  cases hn : env.newCtxErr with
  | some e2 => by_cases hpw : opts.sslPEMKeyPassword = "" <;>
        simp [*, Configure, setupCtx, initStage_ok, initStage_err_fips, initStage_err_newctx,
          pemStage_empty, pemStage_ok, pemStage_err_cert, pemStage_err_key, pemStage_err_check,
          modeStage_eq, caStage_empty, caStage_ok, caStage_err_load, caStage_err_verify,
          crlStage_empty, crlStage_ok, crlStage_err, andThen_ok, andThen_err]
  | none =>
  by_cases hpem : opts.sslPEMKeyFile = ""
  · by_cases hca : opts.sslCAFile = ""
    · by_cases hcrl : opts.sslCRLFile = ""
      · by_cases hpw : opts.sslPEMKeyPassword = "" <;>
        simp [*, Configure, setupCtx, initStage_ok, initStage_err_fips, initStage_err_newctx,
          pemStage_empty, pemStage_ok, pemStage_err_cert, pemStage_err_key, pemStage_err_check,
          modeStage_eq, caStage_empty, caStage_ok, caStage_err_load, caStage_err_verify,
          crlStage_empty, crlStage_ok, crlStage_err, andThen_ok, andThen_err]
      · cases hal : env.addLookupErr with
        | some e2 => by_cases hpw : opts.sslPEMKeyPassword = "" <;>
        simp [*, Configure, setupCtx, initStage_ok, initStage_err_fips, initStage_err_newctx,
          pemStage_empty, pemStage_ok, pemStage_err_cert, pemStage_err_key, pemStage_err_check,
          modeStage_eq, caStage_empty, caStage_ok, caStage_err_load, caStage_err_verify,
          crlStage_empty, crlStage_ok, crlStage_err, andThen_ok, andThen_err]
        | none => by_cases hpw : opts.sslPEMKeyPassword = "" <;>
        simp [*, Configure, setupCtx, initStage_ok, initStage_err_fips, initStage_err_newctx,
          pemStage_empty, pemStage_ok, pemStage_err_cert, pemStage_err_key, pemStage_err_check,
          modeStage_eq, caStage_empty, caStage_ok, caStage_err_load, caStage_err_verify,
          crlStage_empty, crlStage_ok, crlStage_err, andThen_ok, andThen_err]
    · cases hlc : env.loadClientCAErr with
      | some e2 => by_cases hpw : opts.sslPEMKeyPassword = "" <;>
        simp [*, Configure, setupCtx, initStage_ok, initStage_err_fips, initStage_err_newctx,
          pemStage_empty, pemStage_ok, pemStage_err_cert, pemStage_err_key, pemStage_err_check,
          modeStage_eq, caStage_empty, caStage_ok, caStage_err_load, caStage_err_verify,
          crlStage_empty, crlStage_ok, crlStage_err, andThen_ok, andThen_err]
      | none =>
      cases hvl : env.verifyLocErr with
      | some e2 => by_cases hpw : opts.sslPEMKeyPassword = "" <;>
        simp [*, Configure, setupCtx, initStage_ok, initStage_err_fips, initStage_err_newctx,
          pemStage_empty, pemStage_ok, pemStage_err_cert, pemStage_err_key, pemStage_err_check,
          modeStage_eq, caStage_empty, caStage_ok, caStage_err_load, caStage_err_verify,
          crlStage_empty, crlStage_ok, crlStage_err, andThen_ok, andThen_err]
      | none =>
      by_cases hcrl : opts.sslCRLFile = ""
      · by_cases hpw : opts.sslPEMKeyPassword = "" <;>
        simp [*, Configure, setupCtx, initStage_ok, initStage_err_fips, initStage_err_newctx,
          pemStage_empty, pemStage_ok, pemStage_err_cert, pemStage_err_key, pemStage_err_check,
          modeStage_eq, caStage_empty, caStage_ok, caStage_err_load, caStage_err_verify,
          crlStage_empty, crlStage_ok, crlStage_err, andThen_ok, andThen_err]
      · cases hal : env.addLookupErr with
        | some e2 => by_cases hpw : opts.sslPEMKeyPassword = "" <;>
        simp [*, Configure, setupCtx, initStage_ok, initStage_err_fips, initStage_err_newctx,
          pemStage_empty, pemStage_ok, pemStage_err_cert, pemStage_err_key, pemStage_err_check,
          modeStage_eq, caStage_empty, caStage_ok, caStage_err_load, caStage_err_verify,
          crlStage_empty, crlStage_ok, crlStage_err, andThen_ok, andThen_err]
        | none => by_cases hpw : opts.sslPEMKeyPassword = "" <;>
        simp [*, Configure, setupCtx, initStage_ok, initStage_err_fips, initStage_err_newctx,
          pemStage_empty, pemStage_ok, pemStage_err_cert, pemStage_err_key, pemStage_err_check,
          modeStage_eq, caStage_empty, caStage_ok, caStage_err_load, caStage_err_verify,
          crlStage_empty, crlStage_ok, crlStage_err, andThen_ok, andThen_err]
  · cases hcc : env.certChainErr with
    | some e2 => by_cases hpw : opts.sslPEMKeyPassword = "" <;>
        simp [*, Configure, setupCtx, initStage_ok, initStage_err_fips, initStage_err_newctx,
          pemStage_empty, pemStage_ok, pemStage_err_cert, pemStage_err_key, pemStage_err_check,
          modeStage_eq, caStage_empty, caStage_ok, caStage_err_load, caStage_err_verify,
          crlStage_empty, crlStage_ok, crlStage_err, andThen_ok, andThen_err]
    | none =>
    cases hpk : env.privKeyErr with
    | some e2 => by_cases hpw : opts.sslPEMKeyPassword = "" <;>
        simp [*, Configure, setupCtx, initStage_ok, initStage_err_fips, initStage_err_newctx,
          pemStage_empty, pemStage_ok, pemStage_err_cert, pemStage_err_key, pemStage_err_check,
          modeStage_eq, caStage_empty, caStage_ok, caStage_err_load, caStage_err_verify,
          crlStage_empty, crlStage_ok, crlStage_err, andThen_ok, andThen_err]
    | none =>
    cases hck : env.checkKeyErr with
    | some e2 => by_cases hpw : opts.sslPEMKeyPassword = "" <;>
        simp [*, Configure, setupCtx, initStage_ok, initStage_err_fips, initStage_err_newctx,
          pemStage_empty, pemStage_ok, pemStage_err_cert, pemStage_err_key, pemStage_err_check,
          modeStage_eq, caStage_empty, caStage_ok, caStage_err_load, caStage_err_verify,
          crlStage_empty, crlStage_ok, crlStage_err, andThen_ok, andThen_err]
    | none =>
    by_cases hca : opts.sslCAFile = ""
    · by_cases hcrl : opts.sslCRLFile = ""
      · by_cases hpw : opts.sslPEMKeyPassword = "" <;>
        simp [*, Configure, setupCtx, initStage_ok, initStage_err_fips, initStage_err_newctx,
          pemStage_empty, pemStage_ok, pemStage_err_cert, pemStage_err_key, pemStage_err_check,
          modeStage_eq, caStage_empty, caStage_ok, caStage_err_load, caStage_err_verify,
          crlStage_empty, crlStage_ok, crlStage_err, andThen_ok, andThen_err]
      · cases hal : env.addLookupErr with
        | some e2 => by_cases hpw : opts.sslPEMKeyPassword = "" <;>
        simp [*, Configure, setupCtx, initStage_ok, initStage_err_fips, initStage_err_newctx,
          pemStage_empty, pemStage_ok, pemStage_err_cert, pemStage_err_key, pemStage_err_check,
          modeStage_eq, caStage_empty, caStage_ok, caStage_err_load, caStage_err_verify,
          crlStage_empty, crlStage_ok, crlStage_err, andThen_ok, andThen_err]
        | none => by_cases hpw : opts.sslPEMKeyPassword = "" <;>
        simp [*, Configure, setupCtx, initStage_ok, initStage_err_fips, initStage_err_newctx,
          pemStage_empty, pemStage_ok, pemStage_err_cert, pemStage_err_key, pemStage_err_check,
          modeStage_eq, caStage_empty, caStage_ok, caStage_err_load, caStage_err_verify,
          crlStage_empty, crlStage_ok, crlStage_err, andThen_ok, andThen_err]
    · cases hlc : env.loadClientCAErr with
      | some e2 => by_cases hpw : opts.sslPEMKeyPassword = "" <;>
        simp [*, Configure, setupCtx, initStage_ok, initStage_err_fips, initStage_err_newctx,
          pemStage_empty, pemStage_ok, pemStage_err_cert, pemStage_err_key, pemStage_err_check,
          modeStage_eq, caStage_empty, caStage_ok, caStage_err_load, caStage_err_verify,
          crlStage_empty, crlStage_ok, crlStage_err, andThen_ok, andThen_err]
      | none =>
      cases hvl : env.verifyLocErr with
      | some e2 => by_cases hpw : opts.sslPEMKeyPassword = "" <;>
        simp [*, Configure, setupCtx, initStage_ok, initStage_err_fips, initStage_err_newctx,
          pemStage_empty, pemStage_ok, pemStage_err_cert, pemStage_err_key, pemStage_err_check,
          modeStage_eq, caStage_empty, caStage_ok, caStage_err_load, caStage_err_verify,
          crlStage_empty, crlStage_ok, crlStage_err, andThen_ok, andThen_err]
      | none =>
      by_cases hcrl : opts.sslCRLFile = ""
      · by_cases hpw : opts.sslPEMKeyPassword = "" <;>
        simp [*, Configure, setupCtx, initStage_ok, initStage_err_fips, initStage_err_newctx,
          pemStage_empty, pemStage_ok, pemStage_err_cert, pemStage_err_key, pemStage_err_check,
          modeStage_eq, caStage_empty, caStage_ok, caStage_err_load, caStage_err_verify,
          crlStage_empty, crlStage_ok, crlStage_err, andThen_ok, andThen_err]
      · cases hal : env.addLookupErr with
        | some e2 => by_cases hpw : opts.sslPEMKeyPassword = "" <;>
        simp [*, Configure, setupCtx, initStage_ok, initStage_err_fips, initStage_err_newctx,
          pemStage_empty, pemStage_ok, pemStage_err_cert, pemStage_err_key, pemStage_err_check,
          modeStage_eq, caStage_empty, caStage_ok, caStage_err_load, caStage_err_verify,
          crlStage_empty, crlStage_ok, crlStage_err, andThen_ok, andThen_err]
        | none => by_cases hpw : opts.sslPEMKeyPassword = "" <;>
        simp [*, Configure, setupCtx, initStage_ok, initStage_err_fips, initStage_err_newctx,
          pemStage_empty, pemStage_ok, pemStage_err_cert, pemStage_err_key, pemStage_err_check,
          modeStage_eq, caStage_empty, caStage_ok, caStage_err_load, caStage_err_verify,
          crlStage_empty, crlStage_ok, crlStage_err, andThen_ok, andThen_err]

/-- Once the opening calls succeed, the setupCtx trace starts with the
opening events followed by the whole PEM-stage trace. -/
theorem setupCtx_trace_decomp (opts : ToolOptions) (env : Env)
    (hf : env.fipsErr = none) (hn : env.newCtxErr = none) :
    ∃ rest, (setupCtx opts env).2 =
      initTr opts ++ (pemStage opts env (ctx0 env)).2 ++ rest := by
  rw [setupCtx_unfold opts env hf hn]
  rcases hp : pemStage opts env (ctx0 env) with ⟨rP, tP⟩
  cases rP with
  | error m =>
    refine ⟨[], ?_⟩
    simp [andThen_ok, hp, andThen_err]
  | ok cP =>
    rcases hca2 : caStage opts env (modeUpd cP) with ⟨rCA, tCA⟩
    cases rCA with
    | error m =>
      refine ⟨modeTr ++ tCA, ?_⟩
      simp [andThen_ok, hp, modeStage_eq, hca2, andThen_err, List.append_assoc]
    | ok cCA =>
      rcases hcrl2 : crlStage opts env cCA with ⟨rCRL, tCRL⟩
      refine ⟨modeTr ++ tCA ++ tCRL, ?_⟩
      cases rCRL <;>
        simp [andThen_ok, hp, modeStage_eq, hca2, hcrl2, andThen_err, List.append_assoc]

/-- With a PEM key file given, the PEM stage always records the
certificate-chain load attempt. -/
theorem pemStage_cert_event (opts : ToolOptions) (env : Env) (c : Ctx)
    (hpem : ¬ opts.sslPEMKeyFile = "") :
    Event.UseCertificateChainFile opts.sslPEMKeyFile ∈ (pemStage opts env c).2 := by
  unfold pemStage
  repeat' split
  all_goals simp_all

/-- After a successful chain load, the PEM stage records the key-load
attempt (with or without password as chosen by the options). -/
theorem pemStage_key_event (opts : ToolOptions) (env : Env) (c : Ctx)
    (hpem : ¬ opts.sslPEMKeyFile = "") (hcc : env.certChainErr = none) :
    ∀ ev ∈ keyEvt opts, ev ∈ (pemStage opts env c).2 := by
  intro ev hev
  unfold pemStage
  repeat' split
  all_goals simp_all [keyEvt]

/-- A password-based key load is only ever attempted for the configured PEM
file with the configured non-empty password. -/
theorem pemStage_mem_keyPw (opts : ToolOptions) (env : Env) (c : Ctx) (f p : String)
    (h : Event.UsePrivateKeyFileWithPassword f p ∈ (pemStage opts env c).2) :
    ¬ opts.sslPEMKeyPassword = "" ∧ f = opts.sslPEMKeyFile ∧
    p = opts.sslPEMKeyPassword := by
  unfold pemStage at h
  repeat' split at h
  all_goals simp_all

/-- An unencrypted key load is only ever attempted for the configured PEM
file when the password is empty. -/
theorem pemStage_mem_keyPlain (opts : ToolOptions) (env : Env) (c : Ctx) (f : String)
    (h : Event.UsePrivateKeyFile f ∈ (pemStage opts env c).2) :
    opts.sslPEMKeyPassword = "" ∧ f = opts.sslPEMKeyFile := by
  unfold pemStage at h
  repeat' split at h
  all_goals simp_all

/-- C5: the PEM block. When no PEM key file is given none of its calls run.
When one is given (and the opening calls succeed) the chain load runs
first and a failure aborts the build with the certificate-load error and no
further PEM call; then the key is loaded with the supplied password exactly
when it is non-empty and as unencrypted otherwise, a failure aborting with
the key-load error; then the key-certificate match is checked, a failure
aborting with the mismatch error; when all three succeed they appear
consecutively in the trace in that order. -/
theorem setupCtx_pem_block (opts : ToolOptions) (env : Env)
    (hf : env.fipsErr = none) (hn : env.newCtxErr = none) :
    (opts.sslPEMKeyFile = "" →
      (∀ f, Event.UseCertificateChainFile f ∉ (setupCtx opts env).2) ∧
      (∀ f p, Event.UsePrivateKeyFileWithPassword f p ∉ (setupCtx opts env).2) ∧
      (∀ f, Event.UsePrivateKeyFile f ∉ (setupCtx opts env).2) ∧
      Event.CheckPrivateKey ∉ (setupCtx opts env).2) ∧
    (¬ opts.sslPEMKeyFile = "" →
      Event.UseCertificateChainFile opts.sslPEMKeyFile ∈ (setupCtx opts env).2 ∧
      (∀ e, env.certChainErr = some e →
        setupCtx opts env = (Except.error ("UseCertificateChainFile: " ++ e),
          initTr opts ++ [Event.UseCertificateChainFile opts.sslPEMKeyFile])) ∧
      (env.certChainErr = none →
        ((opts.sslPEMKeyPassword = "" →
            Event.UsePrivateKeyFile opts.sslPEMKeyFile ∈ (setupCtx opts env).2 ∧
            ∀ f p, Event.UsePrivateKeyFileWithPassword f p ∉ (setupCtx opts env).2) ∧
          (¬ opts.sslPEMKeyPassword = "" →
            Event.UsePrivateKeyFileWithPassword opts.sslPEMKeyFile opts.sslPEMKeyPassword ∈
              (setupCtx opts env).2 ∧
            ∀ f, Event.UsePrivateKeyFile f ∉ (setupCtx opts env).2)) ∧
        (∀ e, env.privKeyErr = some e →
          setupCtx opts env = (Except.error ("UsePrivateKeyFile: " ++ e),
            initTr opts ++ [Event.UseCertificateChainFile opts.sslPEMKeyFile]
              ++ keyEvt opts)) ∧
        (∀ e, env.privKeyErr = none → env.checkKeyErr = some e →
          setupCtx opts env = (Except.error ("CheckPrivateKey: " ++ e),
            initTr opts ++ pemTr opts)) ∧
        (env.privKeyErr = none → env.checkKeyErr = none →
          ∃ post, (setupCtx opts env).2 =
            initTr opts ++ [Event.UseCertificateChainFile opts.sslPEMKeyFile]
              ++ keyEvt opts ++ [Event.CheckPrivateKey] ++ post))) := by
  constructor
  · intro hpem
    refine ⟨?_, ?_, ?_, ?_⟩
    · intro f hmem
      rcases setupCtx_mem_cases opts env _ hmem with h5 | ⟨c5, h5⟩ | ⟨c5, h5⟩ | ⟨c5, h5⟩ | ⟨c5, h5⟩
      · rcases initStage_mem opts env _ h5 with h6 | h6 | h6 | h6 <;> simp_all
      · exact (pemStage_mem opts env c5 _ h5).1 hpem
      · rcases modeStage_mem c5 _ h5 with h6 | h6 <;> simp_all
      · rcases (caStage_mem opts env c5 _ h5).2 with h6 | h6 | h6 | h6 <;> simp_all
      · rcases (crlStage_mem opts env c5 _ h5).2 with h6 | h6 | h6 <;> simp_all
    · intro f p hmem
      rcases setupCtx_mem_cases opts env _ hmem with h5 | ⟨c5, h5⟩ | ⟨c5, h5⟩ | ⟨c5, h5⟩ | ⟨c5, h5⟩
      · rcases initStage_mem opts env _ h5 with h6 | h6 | h6 | h6 <;> simp_all
      · exact (pemStage_mem opts env c5 _ h5).1 hpem
      · rcases modeStage_mem c5 _ h5 with h6 | h6 <;> simp_all
      · rcases (caStage_mem opts env c5 _ h5).2 with h6 | h6 | h6 | h6 <;> simp_all
      · rcases (crlStage_mem opts env c5 _ h5).2 with h6 | h6 | h6 <;> simp_all
    · intro f hmem
      rcases setupCtx_mem_cases opts env _ hmem with h5 | ⟨c5, h5⟩ | ⟨c5, h5⟩ | ⟨c5, h5⟩ | ⟨c5, h5⟩
      · rcases initStage_mem opts env _ h5 with h6 | h6 | h6 | h6 <;> simp_all
      · exact (pemStage_mem opts env c5 _ h5).1 hpem
      · rcases modeStage_mem c5 _ h5 with h6 | h6 <;> simp_all
      · rcases (caStage_mem opts env c5 _ h5).2 with h6 | h6 | h6 | h6 <;> simp_all
      · rcases (crlStage_mem opts env c5 _ h5).2 with h6 | h6 | h6 <;> simp_all
    · intro hmem
      rcases setupCtx_mem_cases opts env _ hmem with h5 | ⟨c5, h5⟩ | ⟨c5, h5⟩ | ⟨c5, h5⟩ | ⟨c5, h5⟩
      · rcases initStage_mem opts env _ h5 with h6 | h6 | h6 | h6 <;> simp_all
      · exact (pemStage_mem opts env c5 _ h5).1 hpem
      · rcases modeStage_mem c5 _ h5 with h6 | h6 <;> simp_all
      · rcases (caStage_mem opts env c5 _ h5).2 with h6 | h6 | h6 | h6 <;> simp_all
      · rcases (crlStage_mem opts env c5 _ h5).2 with h6 | h6 | h6 <;> simp_all
  · intro hpem
    refine ⟨?_, ?_, ?_⟩
    · obtain ⟨rest, hdec⟩ := setupCtx_trace_decomp opts env hf hn
      rw [hdec]
      simp only [List.mem_append]
      exact Or.inl (Or.inr (pemStage_cert_event opts env (ctx0 env) hpem))
    · intro e hcc
      rw [setupCtx_unfold opts env hf hn, andThen_ok,
        pemStage_err_cert opts env (ctx0 env) e hpem hcc]
      simp [andThen_err]
    · intro hcc
      refine ⟨⟨?_, ?_⟩, ?_, ?_, ?_⟩
      · intro hpw
        constructor
        · obtain ⟨rest, hdec⟩ := setupCtx_trace_decomp opts env hf hn
          rw [hdec]
          simp only [List.mem_append]
          refine Or.inl (Or.inr (pemStage_key_event opts env (ctx0 env) hpem hcc _ ?_))
          simp [keyEvt, hpw]
        · intro f p hmem
          rcases setupCtx_mem_cases opts env _ hmem with
            h5 | ⟨c5, h5⟩ | ⟨c5, h5⟩ | ⟨c5, h5⟩ | ⟨c5, h5⟩
          · rcases initStage_mem opts env _ h5 with h6 | h6 | h6 | h6 <;> simp_all
          · exact (pemStage_mem_keyPw opts env c5 f p h5).1 hpw
          · rcases modeStage_mem c5 _ h5 with h6 | h6 <;> simp_all
          · rcases (caStage_mem opts env c5 _ h5).2 with h6 | h6 | h6 | h6 <;> simp_all
          · rcases (crlStage_mem opts env c5 _ h5).2 with h6 | h6 | h6 <;> simp_all
      · intro hpw
        constructor
        · obtain ⟨rest, hdec⟩ := setupCtx_trace_decomp opts env hf hn
          rw [hdec]
          simp only [List.mem_append]
          refine Or.inl (Or.inr (pemStage_key_event opts env (ctx0 env) hpem hcc _ ?_))
          simp [keyEvt, hpw]
        · intro f hmem
          rcases setupCtx_mem_cases opts env _ hmem with
            h5 | ⟨c5, h5⟩ | ⟨c5, h5⟩ | ⟨c5, h5⟩ | ⟨c5, h5⟩
          · rcases initStage_mem opts env _ h5 with h6 | h6 | h6 | h6 <;> simp_all
          · exact hpw (pemStage_mem_keyPlain opts env c5 f h5).1
          · rcases modeStage_mem c5 _ h5 with h6 | h6 <;> simp_all
          · rcases (caStage_mem opts env c5 _ h5).2 with h6 | h6 | h6 | h6 <;> simp_all
          · rcases (crlStage_mem opts env c5 _ h5).2 with h6 | h6 | h6 <;> simp_all
      · intro e hpk
        rw [setupCtx_unfold opts env hf hn, andThen_ok,
          pemStage_err_key opts env (ctx0 env) e hpem hcc hpk]
        simp [andThen_err, List.append_assoc]
      · intro e hpk hck
        rw [setupCtx_unfold opts env hf hn, andThen_ok,
          pemStage_err_check opts env (ctx0 env) e hpem hcc hpk hck]
        simp [andThen_err]
      · intro hpk hck
        obtain ⟨rest, hdec⟩ := setupCtx_trace_decomp opts env hf hn
        rw [pemStage_ok opts env (ctx0 env) hpem hcc hpk hck] at hdec
        refine ⟨rest, ?_⟩
        rw [hdec]
        simp [pemTr, List.append_assoc]

/-- C5 witness: concrete options with a PEM key file and a password, with
every library call succeeding. -/
theorem setupCtx_pem_block_witness :
    (c5opts.sslPEMKeyFile = "" →
      (∀ f, Event.UseCertificateChainFile f ∉ (setupCtx c5opts {}).2) ∧
      (∀ f p, Event.UsePrivateKeyFileWithPassword f p ∉ (setupCtx c5opts {}).2) ∧
      (∀ f, Event.UsePrivateKeyFile f ∉ (setupCtx c5opts {}).2) ∧
      Event.CheckPrivateKey ∉ (setupCtx c5opts {}).2) ∧
    (¬ c5opts.sslPEMKeyFile = "" →
      Event.UseCertificateChainFile c5opts.sslPEMKeyFile ∈ (setupCtx c5opts {}).2 ∧
      (∀ e, ({} : Env).certChainErr = some e →
        setupCtx c5opts {} = (Except.error ("UseCertificateChainFile: " ++ e),
          initTr c5opts ++ [Event.UseCertificateChainFile c5opts.sslPEMKeyFile])) ∧
      (({} : Env).certChainErr = none →
        ((c5opts.sslPEMKeyPassword = "" →
            Event.UsePrivateKeyFile c5opts.sslPEMKeyFile ∈ (setupCtx c5opts {}).2 ∧
            ∀ f p, Event.UsePrivateKeyFileWithPassword f p ∉ (setupCtx c5opts {}).2) ∧
          (¬ c5opts.sslPEMKeyPassword = "" →
            Event.UsePrivateKeyFileWithPassword c5opts.sslPEMKeyFile c5opts.sslPEMKeyPassword ∈
              (setupCtx c5opts {}).2 ∧
            ∀ f, Event.UsePrivateKeyFile f ∉ (setupCtx c5opts {}).2)) ∧
        (∀ e, ({} : Env).privKeyErr = some e →
          setupCtx c5opts {} = (Except.error ("UsePrivateKeyFile: " ++ e),
            initTr c5opts ++ [Event.UseCertificateChainFile c5opts.sslPEMKeyFile]
              ++ keyEvt c5opts)) ∧
        (∀ e, ({} : Env).privKeyErr = none → ({} : Env).checkKeyErr = some e →
          setupCtx c5opts {} = (Except.error ("CheckPrivateKey: " ++ e),
            initTr c5opts ++ pemTr c5opts)) ∧
        (({} : Env).privKeyErr = none → ({} : Env).checkKeyErr = none →
          ∃ post, (setupCtx c5opts {}).2 =
            initTr c5opts ++ [Event.UseCertificateChainFile c5opts.sslPEMKeyFile]
              ++ keyEvt c5opts ++ [Event.CheckPrivateKey] ++ post))) :=
  setupCtx_pem_block c5opts {} (by rfl) (by rfl)

end OpensslConn
